import Mathlib

/-!
Verification development for the Shipping Data API (Flask + PostgreSQL).

This file gives a shallow embedding, in Lean, of the query-construction and
result-shaping core of `app.py`: the date-token normalizer
(`parse_date_filter`), the legacy-date SQL expression (`get_date_filter_sql`),
the weight/COD numeric-extraction SQL (`get_weight_parsing_sql`), the
ISO-date normalizer (`normalize_iso_to_yyyymmdd`), the SQL builders of the
listing / filter / search / advanced-search / aggregate endpoints, the
pagination block, and the scheduled-report mutations.  SQL statements are
embedded as (text, bound-parameter list) pairs; the sampled aggregate queries
additionally get a row-level semantics over an explicit table of shipment
rows.  Machine floats of the source are modelled as `Rat` (exact values are
small decimals), SQL NULL as `Option`, and SQL errors as the error branch of
`Except`/a dedicated outcome type.
-/

namespace ShippingApi

/-- A civil (proleptic Gregorian) calendar date.  Python's `datetime.now()`
carries a time of day, but every use in `parse_date_filter` formats with
`strftime('%Y%m%d')` and subtracts whole days, so only the civil date is
observable; we model just that. -/
structure DateD where
  year : Nat
  month : Nat
  day : Nat
deriving DecidableEq, Repr

/-- Gregorian leap-year rule (Python `datetime` date arithmetic). -/
def isLeap (y : Nat) : Bool :=
  (y % 4 = 0 && y % 100 != 0) || y % 400 = 0

/-- Number of days in a month of a given year. -/
def daysInMonth (y m : Nat) : Nat :=
  if m = 2 then (if isLeap y then 29 else 28)
  else if m = 4 || m = 6 || m = 9 || m = 11 then 30
  else 31

/-- A structurally valid calendar date. -/
def validDate (d : DateD) : Prop :=
  1 ≤ d.year ∧ 1 ≤ d.month ∧ d.month ≤ 12 ∧ 1 ≤ d.day ∧ d.day ≤ daysInMonth d.year d.month

instance (d : DateD) : Decidable (validDate d) := by
  unfold validDate; infer_instance

/-- The previous calendar day (borrow across month/year boundaries), as
performed by Python `datetime - timedelta(days=1)`. -/
def predDay (d : DateD) : DateD :=
  if 1 < d.day then ⟨d.year, d.month, d.day - 1⟩
  else if 1 < d.month then ⟨d.year, d.month - 1, daysInMonth d.year (d.month - 1)⟩
  else ⟨d.year - 1, 12, 31⟩

/-- The next calendar day, as performed by Python `datetime + timedelta(days=1)`. -/
def succDay (d : DateD) : DateD :=
  if d.day < daysInMonth d.year d.month then ⟨d.year, d.month, d.day + 1⟩
  else if d.month < 12 then ⟨d.year, d.month + 1, 1⟩
  else ⟨d.year + 1, 1, 1⟩

/-- `d - timedelta(days=k)`. -/
def subDays (d : DateD) : Nat → DateD
  | 0 => d
  | k + 1 => subDays (predDay d) k

/-- The date read as the integer YYYYMMDD (the comparable key the whole
code base sorts and compares on). -/
def dateKey (d : DateD) : Nat :=
  d.year * 10000 + d.month * 100 + d.day

/-- Decimal digit as a character. -/
def digitChar : Nat → Char
  | 0 => '0' | 1 => '1' | 2 => '2' | 3 => '3' | 4 => '4'
  | 5 => '5' | 6 => '6' | 7 => '7' | 8 => '8' | 9 => '9'
  | _ => '0'

/-- The `k` low decimal digits of `n`, most significant first (zero padded). -/
def padDigits : Nat → Nat → List Char
  | 0, _ => []
  | k + 1, n => digitChar (n / 10 ^ k) :: padDigits k (n % 10 ^ k)

/-- `strftime('%Y%m%d')` of a date: the 8 decimal digits of `dateKey`.
For years 1000–9999 (4 digits) this is exactly the zero-padded
year-month-day string the source produces. -/
def yyyymmdd (d : DateD) : String :=
  ⟨padDigits 8 (dateKey d)⟩

/-- Python `str.lower()` (character-wise lowercase). -/
def pyLower (s : String) : String :=
  ⟨s.toList.map Char.toLower⟩

/-- Embedding of `parse_date_filter` (app.py).  `parseLit` stands for the
external `dateutil.parser.parse` collaborator, returning the parsed civil
date or `none` when it raises; `now` is the civil date of `datetime.now()`.
Returns the `(start, end)` pair of YYYYMMDD strings, or `(none, none)`. -/
def parse_date_filter (parseLit : String → Option DateD) (now : DateD)
    (ds : Option String) : Option String × Option String :=
  match ds with
  | none => (none, none)
  | some s =>
    if s = "" then (none, none)
    else if pyLower s = "today" then (some (yyyymmdd now), some (yyyymmdd now))
    else if pyLower s = "week" then (some (yyyymmdd (subDays now 7)), some (yyyymmdd now))
    else if pyLower s = "month" then (some (yyyymmdd (subDays now 30)), some (yyyymmdd now))
    else if pyLower s = "year" then (some (yyyymmdd (subDays now 365)), some (yyyymmdd now))
    else if pyLower s = "total" then (none, none)
    else
      match parseLit s with
      | some d => (some (yyyymmdd d), some (yyyymmdd (succDay d)))
      | none => (none, none)

/-- Embedding of `normalize_iso_to_yyyymmdd` (app.py): strip the dashes of
an ISO `YYYY-MM-DD` string (`str.replace('-', '')`, written character-wise);
`None` for a missing/empty value. -/
def normalize_iso_to_yyyymmdd (ds : Option String) : Option String :=
  match ds with
  | none => none
  | some s => if s = "" then none else some ⟨s.toList.filter (fun c => c ≠ '-')⟩

/-- The `LIKE '__-___-__'` shape test of `get_date_filter_sql`: exactly nine
characters with dashes at positions 3 and 7 (1-based); every other position
matches any character. -/
def matchesDDMonYY (s : String) : Bool :=
  s.length = 9 && s.toList.get? 2 = some '-' && s.toList.get? 6 = some '-'

/-- The inner `CASE substring(...,4,3) WHEN 'Jan' THEN '01' ... END` month
lookup; a `CASE` without `ELSE` yields SQL NULL, hence `Option`. -/
def monthCaseSql (mon : String) : Option String :=
  if mon = "Jan" then some "01" else if mon = "Feb" then some "02"
  else if mon = "Mar" then some "03" else if mon = "Apr" then some "04"
  else if mon = "May" then some "05" else if mon = "Jun" then some "06"
  else if mon = "Jul" then some "07" else if mon = "Aug" then some "08"
  else if mon = "Sep" then some "09" else if mon = "Oct" then some "10"
  else if mon = "Nov" then some "11" else if mon = "Dec" then some "12"
  else none

/-- Row-level meaning of the SQL expression returned by `get_date_filter_sql`
(app.py), applied to a non-NULL `shipment_creation_date` value: for a string
matching `LIKE '__-___-__'` it builds `'20' || YY || MM || DD`; string
concatenation with the NULL of an unmatched month case is NULL; every other
string passes through unchanged via the `ELSE` branch. -/
def dateFilterExpr (s : String) : Option String :=
  if matchesDDMonYY s then
    (monthCaseSql ((s.toList.drop 3).take 3).asString).map
      (fun mm => "20" ++ ((s.toList.drop 7).take 2).asString ++ mm
        ++ (s.toList.take 2).asString)
  else some s

/-- Embedding of `convert_date_to_comparable` (app.py): the in-process Python
twin of the SQL expression; returns `None` when the string is not a
9-character date with a known month abbreviation. -/
def convert_date_to_comparable (ds : Option String) : Option String :=
  match ds with
  | none => none
  | some s =>
    if s = "" || s.length ≠ 9 then none
    else
      match monthCaseSql ((s.toList.drop 3).take 3).asString with
      | none => none
      | some mm =>
        some ("20" ++ ((s.toList.drop 7).take 2).asString ++ mm
          ++ (s.toList.take 2).asString)

/-- Strip characters satisfying `ws` from both ends of a character list
(`TRIM` / `str.strip`). -/
def trimChars (ws : Char → Bool) (l : List Char) : List Char :=
  ((l.dropWhile ws).reverse.dropWhile ws).reverse

/-- `REGEXP_REPLACE(TRIM(w), '[^0-9.]', '', 'g')`: keep only digits and
decimal points (SQL `TRIM` strips spaces). -/
def stripNonNumeric (s : String) : String :=
  ⟨(trimChars (fun c => c = ' ') s.toList).filter (fun c => c.isDigit || c = '.')⟩

/-- `REGEXP_REPLACE(s, '^[.]', '0.', 'g')`: repair a leading bare point. -/
def fixLeadingDot (s : String) : String :=
  match s.toList with
  | '.' :: rest => ⟨'0' :: '.' :: rest⟩
  | _ => s

/-- `REGEXP_REPLACE(s, '[.]$', '', 'g')`: strip a trailing bare point. -/
def dropTrailingDot (s : String) : String :=
  if s.toList.getLast? = some '.' then ⟨s.toList.dropLast⟩ else s

/-- Value of a digits-and-dots string under `CAST(... AS NUMERIC)`.
PostgreSQL accepts a nonempty string of digits with at most one decimal
point and at least one digit (such as `"5."` or `".5"`); anything else —
in particular the empty string — raises an error, modelled as `none`.
(The cast's sign/whitespace allowances cannot arise here: the input has
already been stripped to digits and dots.) -/
def pgNumericOfString (s : String) : Option Rat :=
  let cs := s.toList
  if cs = [] then none
  else if !cs.all (fun c => c.isDigit || c = '.') then none
  else if 1 < (cs.filter (fun c => c = '.')).length then none
  else if !cs.any (fun c => c.isDigit) then none
  else
    let intPart := cs.takeWhile (fun c => c ≠ '.')
    let fracPart := (cs.dropWhile (fun c => c ≠ '.')).drop 1
    let intVal : Nat := intPart.foldl (fun a c => a * 10 + (c.toNat - 48)) 0
    let fracVal : Nat := fracPart.foldl (fun a c => a * 10 + (c.toNat - 48)) 0
    some ((intVal : Rat) + (fracVal : Rat) / ((10 : Rat) ^ fracPart.length))

/-- Row-level meaning of the SQL expression returned by
`get_weight_parsing_sql` / `get_cod_parsing_sql` (app.py), applied to the
stored text (`None` = SQL NULL).  `.ok none` is a NULL result (NULL or
empty input); `.ok (some q)` a parsed numeric; `.error ()` the SQL error
raised when the scrubbed text is not a valid numeric literal. -/
def extract_numeric (w : Option String) : Except Unit (Option Rat) :=
  match w with
  | none => .ok none
  | some s =>
    if s = "" then .ok none
    else
      match pgNumericOfString (dropTrailingDot (fixLeadingDot (stripNonNumeric s))) with
      | some q => .ok (some q)
      | none => .error ()

/-- Python truthiness of an optional request parameter: present and nonempty. -/
def truthy (o : Option String) : Bool :=
  o.getD "" ≠ ""

/-- Python `int(s)` on a request string: optional sign around a nonempty
digit string (after stripping surrounding whitespace); `none` when
`ValueError` is raised. -/
def pythonInt (s : String) : Option Int :=
  let t := trimChars Char.isWhitespace s.toList
  let core := fun (l : List Char) => l ≠ [] && l.all Char.isDigit
  match t with
  | '-' :: rest => if core rest then some (-(rest.foldl (fun a c => a * 10 + (c.toNat - 48)) 0 : Nat)) else none
  | '+' :: rest => if core rest then some ((rest.foldl (fun a c => a * 10 + (c.toNat - 48)) 0 : Nat)) else none
  | l => if core l then some ((l.foldl (fun a c => a * 10 + (c.toNat - 48)) 0 : Nat)) else none

/-- Python `float(s)` on a request string, restricted to the plain decimal
forms that matter here: optional sign, digits with at most one decimal
point, at least one digit; `none` when `ValueError` is raised. -/
def pythonFloat (s : String) : Option Rat :=
  let t := trimChars Char.isWhitespace s.toList
  let parse := fun (l : List Char) => pgNumericOfString ⟨l⟩
  match t with
  | '-' :: rest => (parse rest).map (fun q => -q)
  | '+' :: rest => parse rest
  | l => parse l

/-- `sep.join(parts)`: concatenate with a separator (the `" AND ".join` /
`", ".join` of the source). -/
def joinSep (sep : String) : List String → String
  | [] => ""
  | [a] => a
  | a :: rest => a ++ sep ++ joinSep sep rest

/-- A bound SQL parameter (the values handed to the driver next to the
statement text, never interpolated into it). -/
inductive SqlParam where
  | str (s : String)
  | int (n : Int)
  | rat (q : Rat)
deriving DecidableEq, Repr

/-- Outcome of an endpoint handler: a built query or an HTTP error response
(`400` from an explicit parameter check, `500` from the generic exception
handler). -/
inductive ApiOutcome (α : Type) where
  | ok (a : α)
  | err (status : Nat) (msg : String)
deriving DecidableEq, Repr

/-- The count statement and data statement a listing endpoint sends to the
database, each with its ordered bound parameters. -/
structure ListingQuery where
  countText : String
  countParams : List SqlParam
  dataText : String
  dataParams : List SqlParam
deriving DecidableEq, Repr

/-- The text returned by `get_date_filter_sql` (app.py), whitespace
normalized to single spaces. -/
def dateFilterSqlText : String :=
  "CASE WHEN shipment_creation_date LIKE \'__-___-__\' THEN \'20\' || substring(shipment_creation_date, 8, 2) || CASE substring(shipment_creation_date, 4, 3) WHEN \'Jan\' THEN \'01\' WHEN \'Feb\' THEN \'02\' WHEN \'Mar\' THEN \'03\' WHEN \'Apr\' THEN \'04\' WHEN \'May\' THEN \'05\' WHEN \'Jun\' THEN \'06\' WHEN \'Jul\' THEN \'07\' WHEN \'Aug\' THEN \'08\' WHEN \'Sep\' THEN \'09\' WHEN \'Oct\' THEN \'10\' WHEN \'Nov\' THEN \'11\' WHEN \'Dec\' THEN \'12\' END || substring(shipment_creation_date, 1, 2) ELSE shipment_creation_date END"

/-- The text returned by `get_weight_parsing_sql` (app.py), whitespace
normalized. -/
def weightParsingSqlText : String :=
  "CASE WHEN shipment_weight IS NULL OR shipment_weight = \'\' THEN NULL ELSE CAST(REGEXP_REPLACE(REGEXP_REPLACE(REGEXP_REPLACE(TRIM(shipment_weight), \'[^0-9.]\', \'\', \'g\'), \'^[.]\', \'0.\', \'g\'), \'[.]$\', \'\', \'g\') AS NUMERIC) END"

/-- The text returned by `get_cod_parsing_sql` (app.py), whitespace
normalized. -/
def codParsingSqlText : String :=
  "CASE WHEN cod IS NULL OR cod = \'\' THEN NULL ELSE CAST(REGEXP_REPLACE(REGEXP_REPLACE(REGEXP_REPLACE(TRIM(cod), \'[^0-9.]\', \'\', \'g\'), \'^[.]\', \'0.\', \'g\'), \'[.]$\', \'\', \'g\') AS NUMERIC) END"

/-- Embedding of the query construction of `get_all_shipments`
(`GET /api/shipments`, app.py): preset `date_filter` clause first, then
overridden by an explicit `start_date`/`end_date` range when both normalize
to nonempty strings; the data query always orders by `id DESC`. -/
def getAllShipmentsQuery (page limit : Nat) (dateF startP endP : Option String)
    (parseLit : String → Option DateD) (now : DateD) : ListingQuery :=
  let offset := (page - 1) * limit
  let presetMatches :=
    truthy dateF && dateF.getD "" ≠ "total"
      && (parse_date_filter parseLit now dateF).1.isSome
      && (parse_date_filter parseLit now dateF).2.isSome
  let w1 : String :=
    if presetMatches then
      " WHERE " ++ dateFilterSqlText ++ " >= %s AND " ++ dateFilterSqlText ++ " <= %s"
    else ""
  let p1 : List SqlParam :=
    if presetMatches then
      [SqlParam.str ((parse_date_filter parseLit now dateF).1.getD ""),
       SqlParam.str ((parse_date_filter parseLit now dateF).2.getD "")]
    else []
  let customMatches :=
    truthy startP && truthy endP
      && truthy (normalize_iso_to_yyyymmdd startP) && truthy (normalize_iso_to_yyyymmdd endP)
  let w : String :=
    if customMatches then
      " WHERE shipment_creation_date >= %s AND shipment_creation_date <= %s"
    else w1
  let p : List SqlParam :=
    if customMatches then
      [SqlParam.str ((normalize_iso_to_yyyymmdd startP).getD ""),
       SqlParam.str ((normalize_iso_to_yyyymmdd endP).getD "")]
    else p1
  { countText := "SELECT COUNT(*) as total FROM shipments" ++ w
    countParams := p
    dataText := "SELECT * FROM shipments" ++ w ++ " ORDER BY id DESC LIMIT %s OFFSET %s"
    dataParams := p ++ [SqlParam.int limit, SqlParam.int offset] }

/-- Embedding of the query construction of `filter_shipments`
(`GET /api/shipments/filter`, app.py): the caller's `column` parameter is
interpolated directly into the `WHERE` text (as in the source), the `value`
only ever reaches the bound parameters; the data query always orders by the
legacy-date expression descending. -/
def filterShipmentsQuery (column value dateF : Option String) (page limit : Nat)
    (parseLit : String → Option DateD) (now : DateD) : ApiOutcome ListingQuery :=
  if !truthy column || !truthy value then
    .err 400 "column and value parameters are required"
  else
    let c := column.getD ""
    let v := value.getD ""
    let offset := (page - 1) * limit
    let w0 := " WHERE " ++ c ++ " LIKE ?"
    let p0 := [SqlParam.str ("%" ++ v ++ "%")]
    let presetMatches :=
      truthy dateF && dateF.getD "" ≠ "total"
        && (parse_date_filter parseLit now dateF).1.isSome
        && (parse_date_filter parseLit now dateF).2.isSome
    let w : String :=
      if presetMatches then
        w0 ++ " AND " ++ dateFilterSqlText ++ " >= ? AND " ++ dateFilterSqlText ++ " <= ?"
      else w0
    let p : List SqlParam :=
      if presetMatches then
        p0 ++ [SqlParam.str ((parse_date_filter parseLit now dateF).1.getD ""),
          SqlParam.str ((parse_date_filter parseLit now dateF).2.getD "")]
      else p0
    .ok { countText := "SELECT COUNT(*) as total FROM shipments" ++ w
          countParams := p
          dataText := "SELECT * FROM shipments" ++ w ++ " ORDER BY " ++ dateFilterSqlText
            ++ " DESC LIMIT ? OFFSET ?"
          dataParams := p ++ [SqlParam.int limit, SqlParam.int offset] }

/-- Embedding of the query construction of `search_shipments`
(`GET /api/shipments/search`, app.py): an empty (or missing) free-text query
is rejected with HTTP 400 before any statement is built. -/
def searchShipmentsQuery (q dateF : Option String) (page limit : Nat)
    (parseLit : String → Option DateD) (now : DateD) : ApiOutcome ListingQuery :=
  let qq : String := ⟨trimChars Char.isWhitespace (q.getD "").toList⟩
  if qq = "" then .err 400 "query parameter is required"
  else
    let offset := (page - 1) * limit
    let w0 := "search_text @@ websearch_to_tsquery(\'simple\', %s)"
    let p0 := [SqlParam.str qq]
    let presetMatches :=
      truthy dateF && dateF.getD "" ≠ "total"
        && (parse_date_filter parseLit now dateF).1.isSome
        && (parse_date_filter parseLit now dateF).2.isSome
    let wp : List String :=
      if presetMatches then
        [w0, dateFilterSqlText ++ " >= %s AND " ++ dateFilterSqlText ++ " <= %s"]
      else [w0]
    let p : List SqlParam :=
      if presetMatches then
        p0 ++ [SqlParam.str ((parse_date_filter parseLit now dateF).1.getD ""),
          SqlParam.str ((parse_date_filter parseLit now dateF).2.getD "")]
      else p0
    let w := "WHERE " ++ joinSep " AND " wp
    .ok { countText := "SELECT COUNT(*) AS total FROM shipments " ++ w
          countParams := p
          dataText := "SELECT * FROM shipments " ++ w ++ " ORDER BY " ++ dateFilterSqlText
            ++ " DESC LIMIT %s OFFSET %s"
          dataParams := p ++ [SqlParam.int limit, SqlParam.int offset] }

/-- The filter mapping accepted by `build_sql_query_from_filters` (app.py).
The source iterates a caller-supplied dict; we fix the field iteration
order to the order of this structure (date filter first, as in the source's
explicit handling, then the name/city fields, then the weight bounds). -/
structure ReportFilters where
  date_filter : Option String := none
  shipper_name : Option String := none
  shipper_city : Option String := none
  consignee_name : Option String := none
  consignee_city : Option String := none
  min_weight : Option String := none
  max_weight : Option String := none
deriving DecidableEq, Repr

/-- Embedding of `build_sql_query_from_filters` (app.py): the caller's
`columns` list is joined verbatim into the `SELECT` clause; filter values
become `%s` placeholders (the collected parameter list is discarded by the
source, which returns only the text); any exception — e.g. `float(value)`
on a non-numeric weight bound — makes the whole function fall back to
`SELECT * FROM shipments ORDER BY id DESC LIMIT 1000`. -/
def build_sql_query_from_filters (parseLit : String → Option DateD) (now : DateD)
    (filters : ReportFilters) (columns : List String) : String :=
  let attempt : Except Unit String := do
    let selectCols := if columns ≠ [] then joinSep ", " columns else "*"
    let base := "SELECT " ++ selectCols ++ " FROM shipments"
    let dateConds : List String :=
      if truthy filters.date_filter && filters.date_filter.getD "" ≠ "total" then
        match parse_date_filter parseLit now filters.date_filter with
        | (some _, some _) => [dateFilterSqlText ++ " >= %s", dateFilterSqlText ++ " <= %s"]
        | _ => []
      else []
    let likeCond := fun (key : String) (v : Option String) =>
      if truthy v then [key ++ " LIKE %s"] else []
    let weightCond : Option String → String → Except Unit (List String) := fun v op =>
      match v with
      | some s =>
        if s ≠ "" then
          match pythonFloat s with
          | some _ => .ok [weightParsingSqlText ++ " " ++ op ++ " %s"]
          | none => .error ()
        else .ok []
      | none => .ok []
    let minC ← weightCond filters.min_weight ">="
    let maxC ← weightCond filters.max_weight "<="
    let conds := dateConds ++ likeCond "shipper_name" filters.shipper_name
      ++ likeCond "shipper_city" filters.shipper_city
      ++ likeCond "consignee_name" filters.consignee_name
      ++ likeCond "consignee_city" filters.consignee_city ++ minC ++ maxC
    let q := if conds ≠ [] then base ++ " WHERE " ++ joinSep " AND " conds else base
    .ok (q ++ " ORDER BY id DESC LIMIT 1000")
  match attempt with
  | .ok q => q
  | .error _ => "SELECT * FROM shipments ORDER BY id DESC LIMIT 1000"

/-- The request parameters of `advanced_search`
(`GET /api/shipments/advanced-search`, app.py). -/
structure AdvArgs where
  id : Option String := none
  shipment_number : Option String := none
  reference_number : Option String := none
  country_code : Option String := none
  number_of_boxes : Option String := none
  description : Option String := none
  pdf_filename : Option String := none
  creation_date_from : Option String := none
  creation_date_to : Option String := none
  processing_date_from : Option String := none
  processing_date_to : Option String := none
  min_weight : Option String := none
  max_weight : Option String := none
  cod : Option String := none
  shipper_name : Option String := none
  shipper_city : Option String := none
  shipper_phone : Option String := none
  shipper_address : Option String := none
  consignee_name : Option String := none
  consignee_city : Option String := none
  consignee_phone : Option String := none
  consignee_address : Option String := none
deriving DecidableEq, Repr

/-- One exact-match integer condition of `advanced_search`: `int(value)`
either yields a bound equality predicate or raises `ValueError`. -/
def advIntCond (v : Option String) (col : String) :
    Except String (List String × List SqlParam) :=
  match v with
  | some s =>
    if s ≠ "" then
      match pythonInt s with
      | some n => .ok ([col ++ " = %s"], [SqlParam.int n])
      | none => .error ("invalid literal for int with base 10: " ++ s)
    else .ok ([], [])
  | none => .ok ([], [])

/-- One substring condition of `advanced_search` (wildcard-wrapped bound
parameter). -/
def advLikeCond (col : String) (v : Option String) : List String × List SqlParam :=
  if truthy v then ([col ++ " LIKE %s"], [SqlParam.str ("%" ++ v.getD "" ++ "%")])
  else ([], [])

/-- One raw-comparison condition of `advanced_search` (the value is bound
as given). -/
def advRawCond (frag : String) (v : Option String) : List String × List SqlParam :=
  if truthy v then ([frag], [SqlParam.str (v.getD "")])
  else ([], [])

/-- One weight-bound condition of `advanced_search`: `float(value)` inside
`try/except ValueError: pass` — an unparseable bound contributes nothing. -/
def advFloatCond (v : Option String) (op : String) : List String × List SqlParam :=
  match v with
  | some s =>
    if s ≠ "" then
      match pythonFloat s with
      | some q => ([weightParsingSqlText ++ " " ++ op ++ " %s"], [SqlParam.rat q])
      | none => ([], [])
    else ([], [])
  | none => ([], [])

/-- The exact-match country-code condition of `advanced_search`. -/
def advCountryCond (v : Option String) : List String × List SqlParam :=
  if truthy v then (["country_code = %s"], [SqlParam.str (v.getD "")])
  else ([], [])

/-- The ternary COD condition of `advanced_search`. -/
def advCodCond (v : Option String) : List String × List SqlParam :=
  match v with
  | some s =>
    if pyLower s = "yes" then ([codParsingSqlText ++ " > 0"], [])
    else if pyLower s = "no" then
      (["(" ++ codParsingSqlText ++ " = 0 OR " ++ codParsingSqlText ++ " IS NULL)"], [])
    else ([], [])
  | none => ([], [])

/-- The predicate list of `advanced_search`, in source order.  Integer
fields (`id`, `number_of_boxes`) go through `int(...)`: a `ValueError`
propagates (error branch).  Weight bounds: a parse failure silently
contributes no condition.  All other present fields contribute a
parameter-bound condition. -/
def advConditions (a : AdvArgs) : Except String (List String × List SqlParam) := do
  let (c1, p1) ← advIntCond a.id "id"
  let (c2, p2) := advLikeCond "number_shipment" a.shipment_number
  let (c3, p3) := advLikeCond "shipment_reference_number" a.reference_number
  let (c4, p4) := advCountryCond a.country_code
  let (c5, p5) ← advIntCond a.number_of_boxes "number_of_shipment_boxes"
  let (c6, p6) := advLikeCond "shipment_description" a.description
  let (c7, p7) := advLikeCond "pdf_filename" a.pdf_filename
  let (c8, p8) := advRawCond (dateFilterSqlText ++ " >= %s") a.creation_date_from
  let (c9, p9) := advRawCond (dateFilterSqlText ++ " <= %s") a.creation_date_to
  let (c10, p10) := advRawCond "processing_date >= %s" a.processing_date_from
  let (c11, p11) := advRawCond "processing_date <= %s" a.processing_date_to
  let (c12, p12) := advFloatCond a.min_weight ">="
  let (c13, p13) := advFloatCond a.max_weight "<="
  let (c14, p14) := advCodCond a.cod
  let (c15, p15) := advLikeCond "shipper_name" a.shipper_name
  let (c16, p16) := advLikeCond "shipper_city" a.shipper_city
  let (c17, p17) := advLikeCond "shipper_phone" a.shipper_phone
  let (c18, p18) := advLikeCond "shipper_address" a.shipper_address
  let (c19, p19) := advLikeCond "consignee_name" a.consignee_name
  let (c20, p20) := advLikeCond "consignee_city" a.consignee_city
  let (c21, p21) := advLikeCond "consignee_phone" a.consignee_phone
  let (c22, p22) := advLikeCond "consignee_address" a.consignee_address
  .ok (c1 ++ c2 ++ c3 ++ c4 ++ c5 ++ c6 ++ c7 ++ c8 ++ c9 ++ c10 ++ c11 ++ c12 ++ c13
        ++ c14 ++ c15 ++ c16 ++ c17 ++ c18 ++ c19 ++ c20 ++ c21 ++ c22,
       p1 ++ p2 ++ p3 ++ p4 ++ p5 ++ p6 ++ p7 ++ p8 ++ p9 ++ p10 ++ p11 ++ p12 ++ p13
        ++ p14 ++ p15 ++ p16 ++ p17 ++ p18 ++ p19 ++ p20 ++ p21 ++ p22)

/-- Embedding of the query construction of `advanced_search` (app.py): a
`ValueError` from an integer field surfaces through the generic exception
handler as HTTP 500; the data query always orders by the legacy-date
expression descending. -/
def advancedSearchQuery (a : AdvArgs) (page limit : Nat) : ApiOutcome ListingQuery :=
  match advConditions a with
  | .error msg => .err 500 msg
  | .ok (conds, params) =>
    let offset := (page - 1) * limit
    let w := if conds ≠ [] then " WHERE " ++ joinSep " AND " conds else ""
    .ok { countText := "SELECT COUNT(*) as total FROM shipments" ++ w
          countParams := params
          dataText := "SELECT * FROM shipments" ++ w ++ " ORDER BY " ++ dateFilterSqlText
            ++ " DESC LIMIT %s OFFSET %s"
          dataParams := params ++ [SqlParam.int limit, SqlParam.int offset] }

/-- The fixed set of `WHERE` fragments `advanced_search` can emit: every
condition string of the generated statement is one of these, with caller
values present only in the bound parameters. -/
def advWhereFragments : List String :=
  ["id = %s", "number_shipment LIKE %s", "shipment_reference_number LIKE %s",
   "country_code = %s", "number_of_shipment_boxes = %s", "shipment_description LIKE %s",
   "pdf_filename LIKE %s", dateFilterSqlText ++ " >= %s", dateFilterSqlText ++ " <= %s",
   "processing_date >= %s", "processing_date <= %s",
   weightParsingSqlText ++ " " ++ ">=" ++ " %s", weightParsingSqlText ++ " " ++ "<=" ++ " %s",
   codParsingSqlText ++ " > 0",
   "(" ++ codParsingSqlText ++ " = 0 OR " ++ codParsingSqlText ++ " IS NULL)",
   "shipper_name LIKE %s", "shipper_city LIKE %s", "shipper_phone LIKE %s",
   "shipper_address LIKE %s", "consignee_name LIKE %s", "consignee_city LIKE %s",
   "consignee_phone LIKE %s", "consignee_address LIKE %s"]

/-- The bucket-to-row-cap mapping shared by the sampled aggregate endpoints
(`get_top_customers`, `get_top_cities`, `get_average_weight`,
`get_total_shipments`): any other non-`total` token falls back to the
month cap. -/
def sampleSizeFor (df : String) : Nat :=
  if df = "today" then 24000
  else if df = "week" then 168000
  else if df = "month" then 720000
  else if df = "year" then 8640000
  else 720000

/-- The fixed text of the bucket-sampled top-customers statement for a
given row cap (the only request-dependent part of the text). -/
def topCustomersBucketText (n : Nat) : String :=
  "WITH sample_shipments AS (SELECT shipper_name, consignee_name, shipper_phone FROM shipments WHERE id > (SELECT MAX(id) - "
    ++ toString n
    ++ " FROM shipments) AND shipper_name IS NOT NULL AND shipper_name != \'\' ORDER BY id DESC) SELECT shipper_name, MIN(shipper_phone) as shipper_phone, COUNT(*) as shipment_count, COUNT(DISTINCT consignee_name) as unique_consignees FROM sample_shipments GROUP BY shipper_name ORDER BY shipment_count DESC LIMIT %s"

/-- The fixed text of the fallback top-customers statement. -/
def topCustomersFallbackText : String :=
  "WITH sample_shipments AS (SELECT shipper_name, consignee_name, shipper_phone FROM shipments WHERE shipper_name IS NOT NULL AND shipper_name != \'\' ORDER BY id DESC LIMIT 100000) SELECT shipper_name, MIN(shipper_phone) as shipper_phone, COUNT(*) as shipment_count, COUNT(DISTINCT consignee_name) as unique_consignees FROM sample_shipments GROUP BY shipper_name ORDER BY shipment_count DESC LIMIT %s"

/-- The fixed text of the bucket-sampled average-weight statement. -/
def averageWeightBucketText (n : Nat) : String :=
  "WITH sample_shipments AS (SELECT shipment_weight FROM shipments WHERE id > (SELECT MAX(id) - "
    ++ toString n
    ++ " FROM shipments) AND shipment_weight IS NOT NULL AND shipment_weight != \'\' AND shipment_weight ~ \'[0-9]\' ORDER BY id DESC) SELECT AVG("
    ++ weightParsingSqlText ++ ") as average_weight, COUNT(*) as total_shipments FROM sample_shipments"

/-- The fixed text of the fallback average-weight statement. -/
def averageWeightFallbackText : String :=
  "WITH sample_shipments AS (SELECT shipment_weight FROM shipments WHERE shipment_weight IS NOT NULL AND shipment_weight != \'\' AND shipment_weight ~ \'[0-9]\' ORDER BY id DESC LIMIT 100000) SELECT AVG("
    ++ weightParsingSqlText ++ ") as average_weight, COUNT(*) as total_shipments FROM sample_shipments"

/-- The fixed text of the bucket-sampled top-cities statement. -/
def topCitiesBucketText (n : Nat) : String :=
  "WITH sample_shipments AS (SELECT consignee_city FROM shipments WHERE id > (SELECT MAX(id) - "
    ++ toString n
    ++ " FROM shipments) AND consignee_city IS NOT NULL AND consignee_city != \'\' AND consignee_city != \'NULL\' ORDER BY id DESC) SELECT consignee_city as city, COUNT(*) as shipment_count FROM sample_shipments GROUP BY consignee_city ORDER BY shipment_count DESC LIMIT %s"

/-- The fixed text of the fallback top-cities statement. -/
def topCitiesFallbackText : String :=
  "WITH sample_shipments AS (SELECT consignee_city FROM shipments WHERE consignee_city IS NOT NULL AND consignee_city != \'\' AND consignee_city != \'NULL\' ORDER BY id DESC LIMIT 100000) SELECT consignee_city as city, COUNT(*) as shipment_count FROM sample_shipments GROUP BY consignee_city ORDER BY shipment_count DESC LIMIT %s"

/-- Embedding of the query construction of `get_top_customers`
(`GET /api/customers/top`, app.py).  The handler first assembles
`where_conditions`/`params` (presence conditions plus the explicit-range or
token date predicates) and then replaces both with one of two fixed sampling
queries whose only parameter is `limit` — mirrored here by the unused
`_dead*` bindings. -/
def topCustomersQuery (startP endP dateF : Option String) (limit : Nat)
    (parseLit : String → Option DateD) (now : DateD) : String × List SqlParam :=
  let _deadConds : List String × List SqlParam :=
    if truthy startP && truthy endP then
      match normalize_iso_to_yyyymmdd startP, normalize_iso_to_yyyymmdd endP with
      | some ns, some ne =>
        if ns ≠ "" && ne ≠ "" then
          (["shipper_name IS NOT NULL", "shipper_name != \'\'",
            dateFilterSqlText ++ " >= %s", dateFilterSqlText ++ " <= %s"],
           [SqlParam.str ns, SqlParam.str ne])
        else (["shipper_name IS NOT NULL", "shipper_name != \'\'"], [])
      | _, _ => (["shipper_name IS NOT NULL", "shipper_name != \'\'"], [])
    else if truthy dateF && dateF.getD "" ≠ "total" then
      match parse_date_filter parseLit now dateF with
      | (some sd, some ed) =>
        (["shipper_name IS NOT NULL", "shipper_name != \'\'",
          dateFilterSqlText ++ " >= %s", dateFilterSqlText ++ " <= %s"],
         [SqlParam.str sd, SqlParam.str ed])
      | _ => (["shipper_name IS NOT NULL", "shipper_name != \'\'"], [])
    else (["shipper_name IS NOT NULL", "shipper_name != \'\'"], [])
  if truthy dateF && dateF.getD "" ≠ "total" then
    (topCustomersBucketText (sampleSizeFor (dateF.getD "")), [SqlParam.int limit])
  else
    (topCustomersFallbackText, [SqlParam.int limit])

/-- Embedding of the query construction of `get_average_weight`
(`GET /api/shipments/average-weight`, app.py); same discarded-conditions
shape as `topCustomersQuery`, with an empty final parameter list. -/
def averageWeightQuery (startP endP dateF : Option String)
    (parseLit : String → Option DateD) (now : DateD) : String × List SqlParam :=
  let baseConds := ["shipment_weight IS NOT NULL", "shipment_weight != \'\'",
    "shipment_weight ~ \'[0-9]\'"]
  let _deadConds : List String × List SqlParam :=
    if truthy startP && truthy endP then
      match normalize_iso_to_yyyymmdd startP, normalize_iso_to_yyyymmdd endP with
      | some ns, some ne =>
        if ns ≠ "" && ne ≠ "" then
          (baseConds ++ [dateFilterSqlText ++ " >= %s", dateFilterSqlText ++ " <= %s"],
           [SqlParam.str ns, SqlParam.str ne])
        else (baseConds, [])
      | _, _ => (baseConds, [])
    else if truthy dateF && dateF.getD "" ≠ "total" then
      match parse_date_filter parseLit now dateF with
      | (some sd, some ed) =>
        (baseConds ++ [dateFilterSqlText ++ " >= %s", dateFilterSqlText ++ " <= %s"],
         [SqlParam.str sd, SqlParam.str ed])
      | _ => (baseConds, [])
    else (baseConds, [])
  if truthy dateF && dateF.getD "" ≠ "total" then
    (averageWeightBucketText (sampleSizeFor (dateF.getD "")), [])
  else
    (averageWeightFallbackText, [])

/-- Embedding of the query construction of `get_top_cities`
(`GET /api/cities/top`, app.py).  Unlike the other aggregates, a missing
`date_filter` defaults to `'month'` (`request.args.get('date_filter',
'month')`); the handler builds presence + date conditions and then discards
them for one of two fixed sampling statements whose only parameter is
`limit`. -/
def topCitiesQuery (startP endP dateF : Option String) (limit : Nat)
    (parseLit : String → Option DateD) (now : DateD) : String × List SqlParam :=
  let df := dateF.getD "month"
  let baseConds := ["consignee_city IS NOT NULL", "consignee_city != \'\'",
    "consignee_city != \'NULL\'"]
  let _deadConds : List String × List SqlParam :=
    if truthy startP && truthy endP then
      match normalize_iso_to_yyyymmdd startP, normalize_iso_to_yyyymmdd endP with
      | some ns, some ne =>
        if ns ≠ "" && ne ≠ "" then
          (baseConds ++ [dateFilterSqlText ++ " >= %s", dateFilterSqlText ++ " <= %s"],
           [SqlParam.str ns, SqlParam.str ne])
        else (baseConds, [])
      | _, _ => (baseConds, [])
    else if df ≠ "" && df ≠ "total" then
      match parse_date_filter parseLit now (some df) with
      | (some sd, some ed) =>
        (baseConds ++ [dateFilterSqlText ++ " >= %s", dateFilterSqlText ++ " <= %s"],
         [SqlParam.str sd, SqlParam.str ed])
      | _ => (baseConds, [])
    else (baseConds, [])
  if df ≠ "" && df ≠ "total" then
    (topCitiesBucketText (sampleSizeFor df), [SqlParam.int limit])
  else
    (topCitiesFallbackText, [SqlParam.int limit])

/-- The pagination block every listing endpoint computes
(`total_pages = (total + limit - 1) // limit`, `has_next = page < total_pages`,
`has_prev = page > 1`). -/
structure PaginationInfo where
  page : Nat
  limit : Nat
  total : Nat
  total_pages : Nat
  has_next : Bool
  has_prev : Bool
deriving DecidableEq, Repr

/-- Embedding of the pagination computation shared by `get_all_shipments`,
`filter_shipments`, `search_shipments` and `advanced_search` (app.py). -/
def paginationInfo (page limit total : Nat) : PaginationInfo :=
  let tp := (total + limit - 1) / limit
  { page := page, limit := limit, total := total, total_pages := tp
    has_next := decide (page < tp), has_prev := decide (1 < page) }

/-- A row of the `shipments` table, restricted to the columns the sampled
aggregate queries read. -/
structure Shipment where
  id : Nat
  shipment_creation_date : Option String := none
  shipment_weight : Option String := none
  cod : Option String := none
  shipper_name : Option String := none
  shipper_phone : Option String := none
  consignee_name : Option String := none
  consignee_city : Option String := none
deriving DecidableEq, Repr

/-- `SELECT MAX(id) FROM shipments` (0 on an empty table). -/
def maxId (t : List Shipment) : Nat :=
  t.foldr (fun r a => max r.id a) 0

/-- `shipper_name IS NOT NULL AND shipper_name != ''`. -/
def shipperPresent (r : Shipment) : Bool :=
  match r.shipper_name with
  | some s => s ≠ ""
  | none => false

/-- `shipment_weight IS NOT NULL AND shipment_weight != '' AND
shipment_weight ~ '[0-9]'`. -/
def weightPresent (r : Shipment) : Bool :=
  match r.shipment_weight with
  | some s => s ≠ "" && s.toList.any Char.isDigit
  | none => false

/-- `consignee_city IS NOT NULL AND consignee_city != '' AND
consignee_city != 'NULL'`. -/
def cityPresent (r : Shipment) : Bool :=
  match r.consignee_city with
  | some s => s ≠ "" && s ≠ "NULL"
  | none => false

/-- Rows satisfying `id > (SELECT MAX(id) - n FROM shipments)` plus the
presence predicate: the working set of the bucket-sampled CTE. -/
def sampleWindow (t : List Shipment) (n : Nat) (pr : Shipment → Bool) : List Shipment :=
  t.filter (fun r => decide (maxId t - n < r.id) && pr r)

/-- The fallback CTE used when no bucket is requested: presence-filtered
rows, ordered by `id DESC`, first 100000. -/
def fallbackWindow (t : List Shipment) (pr : Shipment → Bool) : List Shipment :=
  ((t.filter pr).mergeSort (fun a b => decide (b.id ≤ a.id))).take 100000

/-- The row set `get_top_customers` aggregates over (the `sample_shipments`
CTE), per requested `date_filter`. -/
def topCustomersWorkingSet (t : List Shipment) (dateF : Option String) : List Shipment :=
  if truthy dateF && dateF.getD "" ≠ "total" then
    sampleWindow t (sampleSizeFor (dateF.getD "")) shipperPresent
  else fallbackWindow t shipperPresent

/-- The row set `get_average_weight` aggregates over, per requested
`date_filter`. -/
def averageWeightWorkingSet (t : List Shipment) (dateF : Option String) : List Shipment :=
  if truthy dateF && dateF.getD "" ≠ "total" then
    sampleWindow t (sampleSizeFor (dateF.getD "")) weightPresent
  else fallbackWindow t weightPresent

/-- The row set `get_top_cities` aggregates over, per requested
`date_filter`; a missing parameter defaults to the `month` bucket. -/
def topCitiesWorkingSet (t : List Shipment) (dateF : Option String) : List Shipment :=
  let df := dateF.getD "month"
  if df ≠ "" && df ≠ "total" then
    sampleWindow t (sampleSizeFor df) cityPresent
  else fallbackWindow t cityPresent

/-- `GROUP BY shipper_name` with `COUNT(*)`, over a working set (ranking
order and `LIMIT` omitted: the claims are about which rows get counted). -/
def topCustomersAgg (ws : List Shipment) : List (String × Nat) :=
  ((ws.filterMap (fun r => r.shipper_name)).dedup).map
    (fun nm => (nm, (ws.filter (fun r => r.shipper_name == some nm)).length))

/-- A row of the `scheduled_reports` table (timestamps as abstract ticks). -/
structure ScheduledReport where
  id : Nat
  report_id : Nat
  schedule_name : String
  schedule_type : String
  schedule_time : String
  schedule_days : String
  email_recipients : String
  email_subject : String
  email_body : String
  is_active : Bool
  next_run_at : Nat
  created_at : Nat
  updated_at : Nat
deriving DecidableEq, Repr

/-- A row of the `custom_reports` table (the columns the scheduled-report
listing joins on). -/
structure CustomReport where
  id : Nat
  title : String
  description : String
deriving DecidableEq, Repr

/-- Embedding of `delete_scheduled_report` (`DELETE
/api/scheduled-reports/<id>`, app.py): `UPDATE scheduled_reports SET
is_active = false, updated_at = CURRENT_TIMESTAMP WHERE id = %s`. -/
def delete_scheduled_report (db : List ScheduledReport) (sid : Nat) (nowT : Nat) :
    List ScheduledReport :=
  db.map (fun r => if r.id = sid then { r with is_active := false, updated_at := nowT } else r)

/-- Embedding of the row selection of `get_scheduled_reports`
(`GET /api/scheduled-reports`, app.py): active schedules joined to their
custom report (the `ORDER BY next_run_at, created_at` of the source does not
affect membership and is omitted). -/
def get_scheduled_reports (db : List ScheduledReport) (reports : List CustomReport) :
    List ScheduledReport :=
  db.filter (fun r => r.is_active && reports.any (fun c => c.id == r.report_id))

/-- `needle` is an initial segment of `hay`. -/
def isPrefixL : List Char → List Char → Bool
  | [], _ => true
  | _ :: _, [] => false
  | a :: as, b :: bs => a == b && isPrefixL as bs

/-- `needle` occurs contiguously inside `hay`. -/
def containsL (needle : List Char) : List Char → Bool
  | [] => isPrefixL needle []
  | c :: rest => isPrefixL needle (c :: rest) || containsL needle rest

/-- The columns of the `shipments` table (the only identifiers a fixed
allow-list for this schema could contain), collected from the queries and
index definitions of the repository. -/
def shipmentsTableColumns : List String :=
  ["id", "number_shipment", "shipment_reference_number", "country_code",
   "number_of_shipment_boxes", "shipment_description", "pdf_filename",
   "shipment_creation_date", "processing_date", "shipment_weight", "cod",
   "shipper_name", "shipper_city", "shipper_phone", "shipper_address",
   "consignee_name", "consignee_city", "consignee_phone", "consignee_address",
   "search_text"]

/-- Data-statement text of an endpoint outcome (empty for an error
response). -/
def outcomeDataText : ApiOutcome ListingQuery → String
  | .ok q => q.dataText
  | .err _ _ => ""

/-- A well-formed date range: both endpoints present, exactly eight decimal
digits each, start not after end (string order, which is how the generated
SQL compares these values). -/
def rangeOk (p : Option String × Option String) : Prop :=
  ∃ a b, p = (some a, some b) ∧ a.length = 8 ∧ b.length = 8 ∧
    a.toList.all Char.isDigit ∧ b.toList.all Char.isDigit ∧ a ≤ b

/-- The guaranteed behavior of `parse_date_filter` on a requested token
`s`, relative to clock date `now` and literal-date parser `parseLit`: each
named token (case-insensitive) yields its documented YYYYMMDD window with
start ≤ end, `total` and unparseable strings yield no range, and a parsed
literal date yields the 1-day window from its midnight. -/
def ParseDateFilterSpec (parseLit : String → Option DateD) (now : DateD) (s : String) : Prop :=
  (pyLower s = "today" →
    parse_date_filter parseLit now (some s) = (some (yyyymmdd now), some (yyyymmdd now)) ∧
    rangeOk (parse_date_filter parseLit now (some s))) ∧
  (pyLower s = "week" →
    parse_date_filter parseLit now (some s)
      = (some (yyyymmdd (subDays now 7)), some (yyyymmdd now)) ∧
    rangeOk (parse_date_filter parseLit now (some s))) ∧
  (pyLower s = "month" →
    parse_date_filter parseLit now (some s)
      = (some (yyyymmdd (subDays now 30)), some (yyyymmdd now)) ∧
    rangeOk (parse_date_filter parseLit now (some s))) ∧
  (pyLower s = "year" →
    parse_date_filter parseLit now (some s)
      = (some (yyyymmdd (subDays now 365)), some (yyyymmdd now)) ∧
    rangeOk (parse_date_filter parseLit now (some s))) ∧
  (pyLower s = "total" → parse_date_filter parseLit now (some s) = (none, none)) ∧
  (s = "" → parse_date_filter parseLit now (some s) = (none, none)) ∧
  (pyLower s ∉ ["today", "week", "month", "year", "total"] → parseLit s = none →
    parse_date_filter parseLit now (some s) = (none, none)) ∧
  (∀ d, s ≠ "" → pyLower s ∉ ["today", "week", "month", "year", "total"] →
    parseLit s = some d →
    parse_date_filter parseLit now (some s)
      = (some (yyyymmdd d), some (yyyymmdd (succDay d))) ∧
    rangeOk (parse_date_filter parseLit now (some s)))

theorem padDigits_length : ∀ k n, (padDigits k n).length = k
  | 0, _ => rfl
  | k + 1, n => by simp [padDigits, padDigits_length k]

theorem digitChar_lt_aux : ∀ x y : Fin 10, x.val < y.val → digitChar x.val < digitChar y.val := by decide

theorem digitChar_lt {x y : Nat} (hxy : x < y) (hy : y ≤ 9) : digitChar x < digitChar y :=
  digitChar_lt_aux ⟨x, by omega⟩ ⟨y, by omega⟩ hxy

theorem digitChar_isDigit_aux : ∀ x : Fin 10, (digitChar x.val).isDigit = true := by decide

theorem digitChar_isDigit {x : Nat} (hx : x ≤ 9) : (digitChar x).isDigit = true :=
  digitChar_isDigit_aux ⟨x, by omega⟩

theorem div_pow_le_nine {k n : Nat} (h : n < 10 ^ (k + 1)) : n / 10 ^ k ≤ 9 := by
  have hpow : 0 < (10:Nat) ^ k := Nat.pos_pow_of_pos k (by norm_num)
  have hs : (10:Nat) ^ (k + 1) = 10 ^ k * 10 := pow_succ 10 k
  have : n / 10 ^ k < 10 := (Nat.div_lt_iff_lt_mul hpow).mpr (by omega)
  omega

theorem padDigits_all_isDigit : ∀ k n, n < 10 ^ k → (padDigits k n).all Char.isDigit = true
  | 0, _, _ => rfl
  | k + 1, n, h => by
    have hpow : 0 < (10:Nat) ^ k := Nat.pos_pow_of_pos k (by norm_num)
    rw [padDigits, List.all_cons, digitChar_isDigit (div_pow_le_nine h),
      padDigits_all_isDigit k (n % 10 ^ k) (Nat.mod_lt _ hpow)]
    rfl

theorem padDigits_le : ∀ k a b, a ≤ b → b < 10 ^ k →
    List.Lex (· < ·) (padDigits k a) (padDigits k b) ∨ padDigits k a = padDigits k b
  | 0, _, _, _, _ => Or.inr rfl
  | k + 1, a, b, hab, hb => by
    have hpow : 0 < (10:Nat) ^ k := Nat.pos_pow_of_pos k (by norm_num)
    have hq : a / 10 ^ k ≤ b / 10 ^ k := Nat.div_le_div_right hab
    have hqb : b / 10 ^ k ≤ 9 := div_pow_le_nine hb
    rcases Nat.lt_or_ge (a / 10 ^ k) (b / 10 ^ k) with hlt | hge
    · exact Or.inl (List.Lex.rel (digitChar_lt hlt hqb))
    · have heq : a / 10 ^ k = b / 10 ^ k := le_antisymm hq hge
      have ha := Nat.div_add_mod a (10 ^ k)
      have hbb := Nat.div_add_mod b (10 ^ k)
      have heqm : 10 ^ k * (a / 10 ^ k) = 10 ^ k * (b / 10 ^ k) := by rw [heq]
      have hra : a % 10 ^ k ≤ b % 10 ^ k := by omega
      rcases padDigits_le k (a % 10 ^ k) (b % 10 ^ k) hra (Nat.mod_lt _ hpow) with h | h
      · exact Or.inl (by rw [padDigits, padDigits, heq]; exact List.Lex.cons h)
      · exact Or.inr (by rw [padDigits, padDigits, heq, h])

theorem str_le_of_list (l₁ l₂ : List Char)
    (h : List.Lex (· < ·) l₁ l₂ ∨ l₁ = l₂) : (⟨l₁⟩ : String) ≤ ⟨l₂⟩ := by
  rw [String.le_iff_toList_le]
  rcases h with h | h
  · exact le_of_lt h
  · exact le_of_eq (by rw [h])

theorem daysInMonth_bounds (y m : Nat) : 28 ≤ daysInMonth y m ∧ daysInMonth y m ≤ 31 := by
  unfold daysInMonth
  split
  · split <;> omega
  · split <;> omega

theorem predDay_valid {d : DateD} (h : validDate d) (h2 : 2 ≤ d.year) :
    validDate (predDay d) := by
  obtain ⟨hy, hm1, hm2, hd1, hd2⟩ := h
  unfold predDay validDate
  split
  · dsimp only
    exact ⟨hy, hm1, hm2, by omega, by omega⟩
  · split
    · dsimp only
      have := daysInMonth_bounds d.year (d.month - 1)
      exact ⟨hy, by omega, by omega, by omega, le_refl _⟩
    · dsimp only
      have h12 : daysInMonth (d.year - 1) 12 = 31 := by simp [daysInMonth]
      exact ⟨by omega, by omega, by omega, by omega, by omega⟩

theorem predDay_year {d : DateD} :
    d.year - 1 ≤ (predDay d).year ∧ (predDay d).year ≤ d.year := by
  unfold predDay
  split
  · dsimp only
    omega
  · split <;> (dsimp only; omega)

theorem predDay_key_lt {d : DateD} (h : validDate d) : dateKey (predDay d) < dateKey d := by
  obtain ⟨hy, hm1, hm2, hd1, hd2⟩ := h
  unfold predDay dateKey
  split
  · dsimp only
    omega
  · split
    · dsimp only
      have := daysInMonth_bounds d.year (d.month - 1)
      omega
    · dsimp only
      omega

theorem subDays_facts : ∀ (k : Nat) (d : DateD), validDate d → k + 2 ≤ d.year →
    validDate (subDays d k) ∧ d.year - k ≤ (subDays d k).year ∧
    (subDays d k).year ≤ d.year ∧ dateKey (subDays d k) ≤ dateKey d
  | 0, d, h, _ => by
    simp only [subDays]
    exact ⟨h, by omega, le_refl _, le_refl _⟩
  | k + 1, d, h, hy => by
    simp only [subDays]
    have hp := predDay_valid h (by omega)
    have hyr := predDay_year (d := d)
    have hkey := predDay_key_lt h
    obtain ⟨ih1, ih2, ih3, ih4⟩ := subDays_facts k (predDay d) hp (by omega)
    exact ⟨ih1, by omega, by omega, by omega⟩

theorem succDay_valid {d : DateD} (h : validDate d) : validDate (succDay d) := by
  obtain ⟨hy, hm1, hm2, hd1, hd2⟩ := h
  unfold succDay validDate
  split
  · dsimp only
    exact ⟨hy, hm1, hm2, by omega, by omega⟩
  · split
    · dsimp only
      have := daysInMonth_bounds d.year (d.month + 1)
      exact ⟨hy, by omega, by omega, by omega, by omega⟩
    · dsimp only
      have := daysInMonth_bounds (d.year + 1) 1
      exact ⟨by omega, by omega, by omega, by omega, by omega⟩

theorem succDay_key_lt {d : DateD} (h : validDate d) : dateKey d < dateKey (succDay d) := by
  obtain ⟨hy, hm1, hm2, hd1, hd2⟩ := h
  have hdm := daysInMonth_bounds d.year d.month
  unfold succDay dateKey
  split
  · dsimp only
    omega
  · split <;> (dsimp only; omega)

theorem succDay_year_le {d : DateD} : (succDay d).year ≤ d.year + 1 := by
  unfold succDay
  split
  · dsimp only
    omega
  · split <;> (dsimp only; omega)

theorem dateKey_lt_pow {d : DateD} (h : validDate d) (hy : d.year ≤ 9999) :
    dateKey d < 10 ^ 8 := by
  obtain ⟨_, hm1, hm2, hd1, hd2⟩ := h
  have := daysInMonth_bounds d.year d.month
  unfold dateKey
  have hp : (10:Nat) ^ 8 = 100000000 := by norm_num
  omega

theorem yyyymmdd_le {d₁ d₂ : DateD} (h : dateKey d₁ ≤ dateKey d₂)
    (hb : dateKey d₂ < 10 ^ 8) : yyyymmdd d₁ ≤ yyyymmdd d₂ :=
  str_le_of_list _ _ (padDigits_le 8 _ _ h hb)

theorem yyyymmdd_length (d : DateD) : (yyyymmdd d).length = 8 :=
  padDigits_length 8 (dateKey d)

theorem yyyymmdd_digits {d : DateD} (h : validDate d) (hy : d.year ≤ 9999) :
    (yyyymmdd d).toList.all Char.isDigit = true :=
  padDigits_all_isDigit 8 _ (dateKey_lt_pow h hy)

/-- C7: for every supported token (case-insensitive `today`/`week`/`month`/
`year`, or any string the literal-date parser accepts) `parse_date_filter`
returns a pair of exactly-8-digit YYYYMMDD strings with start ≤ end — the
named windows being midnight-of-today/now−7d/now−30d/now−365d through now
and a literal date giving a 1-day window — while `total`, the empty string
and every unparseable string yield `(none, none)` and never an error. -/
theorem parse_date_filter_token_ranges
    (parseLit : String → Option DateD) (now : DateD)
    (hv : validDate now) (h1 : 1970 ≤ now.year) (h2 : now.year ≤ 9999)
    (hp : ∀ s d, parseLit s = some d → validDate d ∧ 1000 ≤ d.year ∧ d.year ≤ 9998)
    (s : String) : ParseDateFilterSpec parseLit now s := by
  have hkey := dateKey_lt_pow hv h2
  have hRangeNow : rangeOk (some (yyyymmdd now), some (yyyymmdd now)) :=
    ⟨_, _, rfl, yyyymmdd_length now, yyyymmdd_length now,
      yyyymmdd_digits hv h2, yyyymmdd_digits hv h2, le_refl _⟩
  have hSub : ∀ k : Nat, k ≤ 365 →
      rangeOk (some (yyyymmdd (subDays now k)), some (yyyymmdd now)) := by
    intro k hk
    obtain ⟨hvk, hyk1, hyk2, hkk⟩ := subDays_facts k now hv (by omega)
    exact ⟨_, _, rfl, yyyymmdd_length _, yyyymmdd_length now,
      yyyymmdd_digits hvk (by omega), yyyymmdd_digits hv h2,
      yyyymmdd_le hkk hkey⟩
  have hEmptyNe : ∀ t : String, pyLower "" = t → t = "" := by
    intro t ht; rw [← ht]; rfl
  refine ⟨?_, ?_, ?_, ?_, ?_, ?_, ?_, ?_⟩
  · intro h
    have hne : s ≠ "" := by
      intro he; rw [he] at h; exact absurd (hEmptyNe _ h) (by decide)
    rw [parse_date_filter, if_neg hne]
    simp only [h]
    simp only [if_true]
    exact ⟨trivial, hRangeNow⟩
  · intro h
    have hne : s ≠ "" := by
      intro he; rw [he] at h; exact absurd (hEmptyNe _ h) (by decide)
    rw [parse_date_filter, if_neg hne]
    simp only [h]
    simp only [if_true]
    exact ⟨rfl, hSub 7 (by norm_num)⟩
  · intro h
    have hne : s ≠ "" := by
      intro he; rw [he] at h; exact absurd (hEmptyNe _ h) (by decide)
    rw [parse_date_filter, if_neg hne]
    simp only [h]
    simp only [if_true]
    exact ⟨rfl, hSub 30 (by norm_num)⟩
  · intro h
    have hne : s ≠ "" := by
      intro he; rw [he] at h; exact absurd (hEmptyNe _ h) (by decide)
    rw [parse_date_filter, if_neg hne]
    simp only [h]
    simp only [if_true]
    exact ⟨rfl, hSub 365 (by norm_num)⟩
  · intro h
    by_cases hse : s = ""
    · rw [parse_date_filter, if_pos hse]
    · rw [parse_date_filter, if_neg hse]
      simp only [h]
      rw [if_neg (show ¬("total":String) = "today" by decide),
        if_neg (show ¬("total":String) = "week" by decide),
        if_neg (show ¬("total":String) = "month" by decide),
        if_neg (show ¬("total":String) = "year" by decide)]
      simp only [if_true]
  · intro h
    rw [parse_date_filter, if_pos h]
  · intro h hnone
    by_cases hse : s = ""
    · rw [parse_date_filter, if_pos hse]
    · simp only [List.mem_cons, List.not_mem_nil, or_false, not_or] at h
      obtain ⟨t1, t2, t3, t4, t5⟩ := h
      rw [parse_date_filter, if_neg hse, if_neg t1, if_neg t2, if_neg t3,
        if_neg t4, if_neg t5, hnone]
  · intro d hse h hsome
    simp only [List.mem_cons, List.not_mem_nil, or_false, not_or] at h
    obtain ⟨t1, t2, t3, t4, t5⟩ := h
    obtain ⟨hvd, hy1, hy2⟩ := hp s d hsome
    have hvs := succDay_valid hvd
    have hks := succDay_key_lt hvd
    have hys : (succDay d).year ≤ d.year + 1 := succDay_year_le
    have hkb : dateKey (succDay d) < 10 ^ 8 := dateKey_lt_pow hvs (by omega)
    rw [parse_date_filter, if_neg hse, if_neg t1, if_neg t2, if_neg t3,
      if_neg t4, if_neg t5, hsome]
    refine ⟨rfl, ⟨_, _, rfl, yyyymmdd_length _, yyyymmdd_length _,
      yyyymmdd_digits hvd (by omega), yyyymmdd_digits hvs (by omega),
      yyyymmdd_le (le_of_lt hks) hkb⟩⟩

/-- Witness: `parse_date_filter_token_ranges` applied at the concrete clock
date 2024-03-01 with a literal parser that accepts nothing. -/
theorem parse_date_filter_token_ranges_witness :
    validDate ⟨2024, 3, 1⟩ ∧ 1970 ≤ (⟨2024, 3, 1⟩ : DateD).year ∧
    (⟨2024, 3, 1⟩ : DateD).year ≤ 9999 ∧
    ParseDateFilterSpec (fun _ => none) ⟨2024, 3, 1⟩ "week" :=
  ⟨by decide, by decide, by decide,
    parse_date_filter_token_ranges (fun _ => none) ⟨2024, 3, 1⟩ (by decide) (by decide)
      (by decide) (fun _ _ h => Option.noConfusion h) "week"⟩

/-- C9: for every listing/filter/search response the pagination block
satisfies `total_pages = ceil(total / limit)`, `has_next ↔ page < total_pages`
and `has_prev ↔ page > 1`. -/
theorem pagination_info_spec (page limit total : Nat) (h : 0 < limit) :
    (paginationInfo page limit total).total_pages = ⌈(total : ℚ) / (limit : ℚ)⌉₊ ∧
    ((paginationInfo page limit total).has_next = true ↔
      page < (paginationInfo page limit total).total_pages) ∧
    ((paginationInfo page limit total).has_prev = true ↔ 1 < page) := by
  refine ⟨?_, by simp [paginationInfo], by simp [paginationInfo]⟩
  have hlq : (0 : ℚ) < (limit : ℚ) := by exact_mod_cast h
  rcases Nat.eq_zero_or_pos total with ht | ht
  · subst ht
    have hz : (limit - 1) / limit = 0 := Nat.div_eq_of_lt (by omega)
    simp [paginationInfo, hz]
  · set tp := (total + limit - 1) / limit with htp
    have htp1 : 1 ≤ tp := by
      rw [htp, Nat.le_div_iff_mul_le h]
      omega
    have hup : tp * limit ≤ total + limit - 1 := Nat.div_mul_le_self _ _
    have hdn : total + limit - 1 < tp * limit + limit := Nat.lt_div_mul_add h
    have hub : total ≤ tp * limit := by omega
    have hlb : (tp - 1) * limit < total := by
      rw [Nat.sub_mul, one_mul]
      omega
    symm
    show ⌈(total : ℚ) / (limit : ℚ)⌉₊ = tp
    rw [Nat.ceil_eq_iff (show tp ≠ 0 by omega)]
    constructor
    · rw [lt_div_iff₀ hlq]
      exact_mod_cast hlb
    · rw [div_le_iff₀ hlq]
      exact_mod_cast hub

/-- Witness: `pagination_info_spec` at the spec's example — 25 matching
rows, page 2, limit 10 — whose block is
`{page 2, limit 10, total 25, total_pages 3, has_next, has_prev}`. -/
theorem pagination_info_spec_witness :
    0 < 10 ∧
    paginationInfo 2 10 25
      = { page := 2, limit := 10, total := 25, total_pages := 3,
          has_next := true, has_prev := true } ∧
    ((paginationInfo 2 10 25).total_pages = ⌈(25 : ℚ) / (10 : ℚ)⌉₊ ∧
      ((paginationInfo 2 10 25).has_next = true ↔ 2 < (paginationInfo 2 10 25).total_pages) ∧
      ((paginationInfo 2 10 25).has_prev = true ↔ 1 < 2)) :=
  ⟨by decide, by decide, pagination_info_spec 2 10 25 (by decide)⟩

/-- C8: the legacy-date SQL expression maps `"05-Jan-24"` to `"20240105"`,
and every string not matching the 9-character `__-___-__` shape passes
through unchanged (it is not dropped). -/
theorem date_filter_expr_spec :
    dateFilterExpr "05-Jan-24" = some "20240105" ∧
    ∀ s, matchesDDMonYY s = false → dateFilterExpr s = some s := by
  refine ⟨by decide, ?_⟩
  intro s hm
  simp [dateFilterExpr, hm]

/-- Witness: `date_filter_expr_spec` applied to the non-conforming string
`"hello"`. -/
theorem date_filter_expr_spec_witness :
    matchesDDMonYY "hello" = false ∧ dateFilterExpr "hello" = some "hello" :=
  ⟨by decide, date_filter_expr_spec.2 "hello" (by decide)⟩

/-- C3 (evaluation): the numeric-extraction SQL satisfies the spec's
positive examples — `"12.5 Kg"` ↦ 12.5, `".5"` ↦ 0.5, `"5."` ↦ 5, `""` and
NULL ↦ NULL — but on `"Kg"` (nonempty, no digits) the scrub leaves the
empty string and `CAST('' AS NUMERIC)` raises a SQL error instead of the
claimed `None`; on `"."` it yields 0 rather than `None`. -/
theorem extract_numeric_eval :
    extract_numeric (some "12.5 Kg") = .ok (some ((25 : Rat) / 2)) ∧
    extract_numeric (some ".5") = .ok (some ((1 : Rat) / 2)) ∧
    extract_numeric (some "5.") = .ok (some 5) ∧
    extract_numeric (some "") = .ok none ∧
    extract_numeric none = .ok none ∧
    extract_numeric (some "Kg") = .error () ∧
    extract_numeric (some ".") = .ok (some 0) := by
  refine ⟨?_, ?_, ?_, by rfl, by rfl, by rfl, ?_⟩
  · have h : extract_numeric (some "12.5 Kg")
        = .ok (some (((12 : Nat) : Rat) + ((5 : Nat) : Rat) / (10 : Rat) ^ (1 : Nat))) := rfl
    rw [h]; norm_num
  · have h : extract_numeric (some ".5")
        = .ok (some (((0 : Nat) : Rat) + ((5 : Nat) : Rat) / (10 : Rat) ^ (1 : Nat))) := rfl
    rw [h]; norm_num
  · have h : extract_numeric (some "5.")
        = .ok (some (((5 : Nat) : Rat) + ((0 : Nat) : Rat) / (10 : Rat) ^ (0 : Nat))) := rfl
    rw [h]; norm_num
  · have h : extract_numeric (some ".")
        = .ok (some (((0 : Nat) : Rat) + ((0 : Nat) : Rat) / (10 : Rat) ^ (0 : Nat))) := rfl
    rw [h]; norm_num

/-- C10: deleting a scheduled report never removes the stored row — the row
count and every field other than `is_active`/`updated_at` are preserved
(`schedule_name`, cadence fields, recipients, `report_id` included), rows
with other ids are untouched, the targeted rows end up inactive, and the
scheduled-reports listing (which returns only `is_active` rows) no longer
contains the schedule. -/
theorem delete_scheduled_report_soft (db : List ScheduledReport) (sid nowT : Nat)
    (reports : List CustomReport) :
    (delete_scheduled_report db sid nowT).length = db.length ∧
    ((delete_scheduled_report db sid nowT).map
        (fun r => (r.id, r.report_id, r.schedule_name, r.schedule_type, r.schedule_time,
          r.schedule_days, r.email_recipients, r.email_subject, r.email_body, r.created_at))
      = db.map
        (fun r => (r.id, r.report_id, r.schedule_name, r.schedule_type, r.schedule_time,
          r.schedule_days, r.email_recipients, r.email_subject, r.email_body, r.created_at))) ∧
    (∀ r ∈ db, r.id ≠ sid → r ∈ delete_scheduled_report db sid nowT) ∧
    (∀ r ∈ delete_scheduled_report db sid nowT, r.id = sid → r.is_active = false) ∧
    (∀ r ∈ get_scheduled_reports (delete_scheduled_report db sid nowT) reports,
      r.id ≠ sid) := by
  refine ⟨?_, ?_, ?_, ?_, ?_⟩
  · simp [delete_scheduled_report]
  · rw [delete_scheduled_report, List.map_map]
    refine List.map_congr_left (fun r _ => ?_)
    by_cases h : r.id = sid <;> simp [h]
  · intro r hr hne
    rw [delete_scheduled_report]
    exact List.mem_map.mpr ⟨r, hr, by simp [hne]⟩
  · intro r hr heq
    rw [delete_scheduled_report] at hr
    obtain ⟨x, _, hx⟩ := List.mem_map.mp hr
    by_cases h : x.id = sid
    · rw [if_pos h] at hx
      rw [← hx]
    · rw [if_neg h] at hx
      rw [← hx] at heq
      exact absurd heq h
  · intro r hr heq
    rw [get_scheduled_reports] at hr
    obtain ⟨hmem, hact⟩ := List.mem_filter.mp hr
    rw [delete_scheduled_report] at hmem
    obtain ⟨x, _, hx⟩ := List.mem_map.mp hmem
    by_cases h : x.id = sid
    · rw [if_pos h] at hx
      rw [← hx] at hact
      simp at hact
    · rw [if_neg h] at hx
      rw [← hx] at heq
      exact absurd heq h

/-- Witness: `delete_scheduled_report_soft` at a concrete one-row store. -/
theorem delete_scheduled_report_soft_witness :
    (delete_scheduled_report
        [{ id := 1, report_id := 5, schedule_name := "n", schedule_type := "daily",
           schedule_time := "09:00:00", schedule_days := "[]", email_recipients := "[]",
           email_subject := "s", email_body := "b", is_active := true,
           next_run_at := 0, created_at := 0, updated_at := 0 }] 1 7).length = 1 ∧
    (∀ r ∈ get_scheduled_reports
        (delete_scheduled_report
          [{ id := 1, report_id := 5, schedule_name := "n", schedule_type := "daily",
             schedule_time := "09:00:00", schedule_days := "[]", email_recipients := "[]",
             email_subject := "s", email_body := "b", is_active := true,
             next_run_at := 0, created_at := 0, updated_at := 0 }] 1 7)
        [{ id := 5, title := "t", description := "" }], r.id ≠ 1) :=
  ⟨(delete_scheduled_report_soft _ 1 7 [{ id := 5, title := "t", description := "" }]).1,
   (delete_scheduled_report_soft _ 1 7 [{ id := 5, title := "t", description := "" }]).2.2.2.2⟩

theorem isPrefixL_self_append : ∀ n b : List Char, isPrefixL n (n ++ b) = true
  | [], _ => rfl
  | c :: n, b => by
    rw [List.cons_append, isPrefixL]
    simp [isPrefixL_self_append n b]

theorem containsL_of_head {n h : List Char} (hp : isPrefixL n h = true) :
    containsL n h = true := by
  cases h with
  | nil => cases n with
    | nil => rfl
    | cons c t => simp [isPrefixL] at hp
  | cons c t => rw [containsL, hp, Bool.true_or]

theorem containsL_append_left {n h : List Char} (hc : containsL n h = true) :
    ∀ a : List Char, containsL n (a ++ h) = true
  | [] => hc
  | c :: a => by
    rw [List.cons_append, containsL, containsL_append_left hc a, Bool.or_true]

theorem containsL_self_append (n b : List Char) : containsL n (n ++ b) = true :=
  containsL_of_head (isPrefixL_self_append n b)

theorem sampleSizeFor_mem (df : String) :
    sampleSizeFor df ∈ [24000, 168000, 720000, 8640000] := by
  simp only [sampleSizeFor]
  split
  · simp
  · split
    · simp
    · split
      · simp
      · split
        · simp
        · simp

theorem advLikeCond_mem (col : String) (v : Option String) :
    ∀ x ∈ (advLikeCond col v).1, x = col ++ " LIKE %s" := by
  intro x hx
  unfold advLikeCond at hx
  split at hx
  · simpa using hx
  · simp at hx

theorem advRawCond_mem (frag : String) (v : Option String) :
    ∀ x ∈ (advRawCond frag v).1, x = frag := by
  intro x hx
  unfold advRawCond at hx
  split at hx
  · simpa using hx
  · simp at hx

theorem advFloatCond_mem (v : Option String) (op : String) :
    ∀ x ∈ (advFloatCond v op).1, x = weightParsingSqlText ++ " " ++ op ++ " %s" := by
  intro x hx
  unfold advFloatCond at hx
  match v with
  | none => simp at hx
  | some s =>
    simp only at hx
    split at hx
    · split at hx
      · simpa using hx
      · simp at hx
    · simp at hx

theorem advCodCond_mem (v : Option String) :
    ∀ x ∈ (advCodCond v).1,
      x = codParsingSqlText ++ " > 0" ∨
      x = "(" ++ codParsingSqlText ++ " = 0 OR " ++ codParsingSqlText ++ " IS NULL)" := by
  intro x hx
  unfold advCodCond at hx
  match v with
  | none => simp at hx
  | some s =>
    simp only at hx
    split at hx
    · simp at hx
      exact Or.inl hx
    · split at hx
      · simp at hx
        exact Or.inr hx
      · simp at hx

theorem advIntCond_mem (v : Option String) (col : String) (c : List String)
    (p : List SqlParam) (h : advIntCond v col = .ok (c, p)) :
    ∀ x ∈ c, x = col ++ " = %s" := by
  intro x hx
  unfold advIntCond at h
  match v with
  | none =>
    simp only at h
    injection h with h2
    injection h2 with hc hp
    rw [← hc] at hx
    simp at hx
  | some s =>
    simp only at h
    split at h
    · split at h
      · injection h with h2
        injection h2 with hc hp
        rw [← hc] at hx
        simpa using hx
      · cases h
    · injection h with h2
      injection h2 with hc hp
      rw [← hc] at hx
      simp at hx

theorem advCountryCond_mem (v : Option String) :
    ∀ x ∈ (advCountryCond v).1, x = "country_code = %s" := by
  intro x hx
  unfold advCountryCond at hx
  split at hx
  · simpa using hx
  · simp at hx

theorem advConditions_fragments (a : AdvArgs) (c : List String) (p : List SqlParam)
    (h : advConditions a = .ok (c, p)) : ∀ x ∈ c, x ∈ advWhereFragments := by
  intro x hx
  cases h1 : advIntCond a.id "id" with
  | error e =>
    rw [advConditions] at h
    rw [h1] at h
    cases h
  | ok cp1 =>
    obtain ⟨c1, p1⟩ := cp1
    cases h5 : advIntCond a.number_of_boxes "number_of_shipment_boxes" with
    | error e =>
      rw [advConditions] at h
      rw [h1] at h
      simp only [bind, Except.bind] at h
      rw [h5] at h
      cases h
    | ok cp5 =>
      obtain ⟨c5, p5⟩ := cp5
      rw [advConditions] at h
      rw [h1] at h
      simp only [bind, Except.bind] at h
      rw [h5] at h
      simp only [bind, Except.bind] at h
      injection h with h2
      injection h2 with hc hp
      rw [← hc] at hx
      simp only [List.mem_append, or_assoc] at hx
      rcases hx with hx|hx|hx|hx|hx|hx|hx|hx|hx|hx|hx|hx|hx|hx|hx|hx|hx|hx|hx|hx|hx|hx
      · rw [advIntCond_mem _ _ _ _ h1 x hx]; simp [advWhereFragments]
      · rw [advLikeCond_mem _ _ x hx]; simp [advWhereFragments]
      · rw [advLikeCond_mem _ _ x hx]; simp [advWhereFragments]
      · rw [advCountryCond_mem _ x hx]; simp [advWhereFragments]
      · rw [advIntCond_mem _ _ _ _ h5 x hx]; simp [advWhereFragments]
      · rw [advLikeCond_mem _ _ x hx]; simp [advWhereFragments]
      · rw [advLikeCond_mem _ _ x hx]; simp [advWhereFragments]
      · rw [advRawCond_mem _ _ x hx]; simp [advWhereFragments]
      · rw [advRawCond_mem _ _ x hx]; simp [advWhereFragments]
      · rw [advRawCond_mem _ _ x hx]; simp [advWhereFragments]
      · rw [advRawCond_mem _ _ x hx]; simp [advWhereFragments]
      · rw [advFloatCond_mem _ _ x hx]; simp [advWhereFragments]
      · rw [advFloatCond_mem _ _ x hx]; simp [advWhereFragments]
      · rcases advCodCond_mem _ x hx with h3 | h3 <;> rw [h3] <;> simp [advWhereFragments]
      · rw [advLikeCond_mem _ _ x hx]; simp [advWhereFragments]
      · rw [advLikeCond_mem _ _ x hx]; simp [advWhereFragments]
      · rw [advLikeCond_mem _ _ x hx]; simp [advWhereFragments]
      · rw [advLikeCond_mem _ _ x hx]; simp [advWhereFragments]
      · rw [advLikeCond_mem _ _ x hx]; simp [advWhereFragments]
      · rw [advLikeCond_mem _ _ x hx]; simp [advWhereFragments]
      · rw [advLikeCond_mem _ _ x hx]; simp [advWhereFragments]
      · rw [advLikeCond_mem _ _ x hx]; simp [advWhereFragments]

theorem getAllShipments_text_templates :
    ∀ (page limit : Nat) (dateF startP endP : Option String)
      (pl : String → Option DateD) (now : DateD),
      ∃ w ∈ ["",
        " WHERE " ++ dateFilterSqlText ++ " >= %s AND " ++ dateFilterSqlText ++ " <= %s",
        " WHERE shipment_creation_date >= %s AND shipment_creation_date <= %s"],
        (getAllShipmentsQuery page limit dateF startP endP pl now).countText
          = "SELECT COUNT(*) as total FROM shipments" ++ w ∧
        (getAllShipmentsQuery page limit dateF startP endP pl now).dataText
          = "SELECT * FROM shipments" ++ w ++ " ORDER BY id DESC LIMIT %s OFFSET %s" := by
  intro page limit dateF startP endP pl now
  by_cases hcm : (truthy startP && truthy endP
      && truthy (normalize_iso_to_yyyymmdd startP)
      && truthy (normalize_iso_to_yyyymmdd endP)) = true
  · refine ⟨" WHERE shipment_creation_date >= %s AND shipment_creation_date <= %s",
      by simp, ?_, ?_⟩ <;>
      simp only [getAllShipmentsQuery, hcm, if_true, ite_true]
  · simp only [Bool.not_eq_true] at hcm
    by_cases hpm : (truthy dateF && dateF.getD "" ≠ "total"
        && (parse_date_filter pl now dateF).1.isSome
        && (parse_date_filter pl now dateF).2.isSome) = true
    · refine ⟨" WHERE " ++ dateFilterSqlText ++ " >= %s AND " ++ dateFilterSqlText
        ++ " <= %s", by simp, ?_, ?_⟩ <;>
        simp only [getAllShipmentsQuery, hcm, hpm, Bool.false_eq_true, if_true, if_false,
          ite_true, ite_false]
    · simp only [Bool.not_eq_true] at hpm
      refine ⟨"", by simp, ?_, ?_⟩ <;>
        simp only [getAllShipmentsQuery, hcm, hpm, Bool.false_eq_true, if_true, if_false,
          ite_true, ite_false]

theorem searchShipments_text_templates :
    ∀ (q dateF : Option String) (page limit : Nat)
      (pl : String → Option DateD) (now : DateD),
      searchShipmentsQuery q dateF page limit pl now
          = .err 400 "query parameter is required" ∨
      ∃ w ∈ ["search_text @@ websearch_to_tsquery(\'simple\', %s)",
        "search_text @@ websearch_to_tsquery(\'simple\', %s)" ++ " AND "
          ++ (dateFilterSqlText ++ " >= %s AND " ++ dateFilterSqlText ++ " <= %s")],
        outcomeDataText (searchShipmentsQuery q dateF page limit pl now)
          = "SELECT * FROM shipments " ++ ("WHERE " ++ w) ++ " ORDER BY "
            ++ dateFilterSqlText ++ " DESC LIMIT %s OFFSET %s" := by
  intro q dateF page limit pl now
  by_cases hq : (⟨trimChars Char.isWhitespace (q.getD "").toList⟩ : String) = ""
  · left
    simp only [searchShipmentsQuery, hq, if_true, ite_true]
  · right
    by_cases hpm : (truthy dateF && dateF.getD "" ≠ "total"
        && (parse_date_filter pl now dateF).1.isSome
        && (parse_date_filter pl now dateF).2.isSome) = true
    · refine ⟨"search_text @@ websearch_to_tsquery(\'simple\', %s)" ++ " AND "
        ++ (dateFilterSqlText ++ " >= %s AND " ++ dateFilterSqlText ++ " <= %s"),
        by simp, ?_⟩
      simp only [searchShipmentsQuery, hq, hpm, Bool.false_eq_true, if_true, if_false,
        ite_true, ite_false, outcomeDataText]
      rfl
    · simp only [Bool.not_eq_true] at hpm
      refine ⟨"search_text @@ websearch_to_tsquery(\'simple\', %s)", by simp, ?_⟩
      simp only [searchShipmentsQuery, hq, hpm, Bool.false_eq_true, if_true, if_false,
        ite_true, ite_false, outcomeDataText]
      rfl

theorem aggregate_text_templates :
    ∀ (s e df : Option String) (limit : Nat) (pl : String → Option DateD) (now : DateD),
      ((topCustomersQuery s e df limit pl now).1 = topCustomersFallbackText ∨
        ∃ n ∈ [24000, 168000, 720000, 8640000],
          (topCustomersQuery s e df limit pl now).1 = topCustomersBucketText n) ∧
      ((averageWeightQuery s e df pl now).1 = averageWeightFallbackText ∨
        ∃ n ∈ [24000, 168000, 720000, 8640000],
          (averageWeightQuery s e df pl now).1 = averageWeightBucketText n) ∧
      ((topCitiesQuery s e df limit pl now).1 = topCitiesFallbackText ∨
        ∃ n ∈ [24000, 168000, 720000, 8640000],
          (topCitiesQuery s e df limit pl now).1 = topCitiesBucketText n) := by
  intro s e df limit pl now
  refine ⟨?_, ?_, ?_⟩
  · by_cases hb : (truthy df && df.getD "" ≠ "total") = true
    · exact Or.inr ⟨sampleSizeFor (df.getD ""), sampleSizeFor_mem _,
        by simp only [topCustomersQuery, hb, if_true, ite_true]⟩
    · simp only [Bool.not_eq_true] at hb
      exact Or.inl (by simp only [topCustomersQuery, hb, Bool.false_eq_true, if_false,
        ite_false])
  · by_cases hb : (truthy df && df.getD "" ≠ "total") = true
    · exact Or.inr ⟨sampleSizeFor (df.getD ""), sampleSizeFor_mem _,
        by simp only [averageWeightQuery, hb, if_true, ite_true]⟩
    · simp only [Bool.not_eq_true] at hb
      exact Or.inl (by simp only [averageWeightQuery, hb, Bool.false_eq_true, if_false,
        ite_false])
  · by_cases hb : (decide (df.getD "month" ≠ "") && decide (df.getD "month" ≠ "total")) = true
    · exact Or.inr ⟨sampleSizeFor (df.getD "month"), sampleSizeFor_mem _,
        by simp only [topCitiesQuery, hb, if_true, ite_true]⟩
    · simp only [Bool.not_eq_true] at hb
      exact Or.inl (by simp only [topCitiesQuery, hb, Bool.false_eq_true, if_false,
        ite_false])

/-- C1 (counterexample): the single-column filter endpoint interpolates the
caller-supplied `column` string — here one that is not a column of the
`shipments` table at all — verbatim into the generated SQL text, and the
custom-report builder does the same with a caller-supplied column name in
its `SELECT` list: no fixed allow-list mediates either. -/
theorem filter_column_injected_verbatim :
    "id; DROP TABLE shipments; --" ∉ shipmentsTableColumns ∧
    containsL "id; DROP TABLE shipments; --".toList
      (outcomeDataText (filterShipmentsQuery (some "id; DROP TABLE shipments; --")
        (some "x") none 1 20 (fun _ => none) ⟨2024, 1, 1⟩)).toList = true ∧
    containsL "shipper_name; DROP TABLE shipments; --".toList
      (build_sql_query_from_filters (fun _ => none) ⟨2024, 1, 1⟩
        { } ["shipper_name; DROP TABLE shipments; --"]).toList = true := by
  refine ⟨by decide, by decide, by decide⟩

/-- C1 (amended): caller-supplied *values* never appear inline in any
generated SQL text — the filter statement's text is independent of the
value, the listing statement's text is one of three fixed templates, the
free-text search statement's text is one of two fixed templates (or a 400
error), every `WHERE` fragment of the advanced multi-field search comes
from a fixed fragment list, and the aggregate (top customers, average
weight, top cities) statement texts are the fixed bucket/fallback
templates — but the column identifiers are not allow-listed: the caller's
`column` parameter is interpolated verbatim into the text of the filter
endpoint's statement, and a caller-supplied column name is interpolated
verbatim into the `SELECT` list the custom-report builder produces. -/
theorem filter_values_bound_columns_interpolated :
    (∀ (c : Option String) (v₁ v₂ : String) (dateF : Option String) (page limit : Nat)
        (pl : String → Option DateD) (now : DateD), v₁ ≠ "" → v₂ ≠ "" →
      outcomeDataText (filterShipmentsQuery c (some v₁) dateF page limit pl now)
        = outcomeDataText (filterShipmentsQuery c (some v₂) dateF page limit pl now)) ∧
    (∀ (c v : String) (dateF : Option String) (page limit : Nat)
        (pl : String → Option DateD) (now : DateD), c ≠ "" → v ≠ "" →
      containsL c.toList
        (outcomeDataText (filterShipmentsQuery (some c) (some v) dateF page limit pl now)).toList
        = true) ∧
    (∀ (col : String) (pl : String → Option DateD) (now : DateD),
      containsL col.toList (build_sql_query_from_filters pl now { } [col]).toList = true) ∧
    (∀ (page limit : Nat) (dateF startP endP : Option String)
        (pl : String → Option DateD) (now : DateD),
      ∃ w ∈ ["",
        " WHERE " ++ dateFilterSqlText ++ " >= %s AND " ++ dateFilterSqlText ++ " <= %s",
        " WHERE shipment_creation_date >= %s AND shipment_creation_date <= %s"],
        (getAllShipmentsQuery page limit dateF startP endP pl now).countText
          = "SELECT COUNT(*) as total FROM shipments" ++ w ∧
        (getAllShipmentsQuery page limit dateF startP endP pl now).dataText
          = "SELECT * FROM shipments" ++ w ++ " ORDER BY id DESC LIMIT %s OFFSET %s") ∧
    (∀ (q dateF : Option String) (page limit : Nat)
        (pl : String → Option DateD) (now : DateD),
      searchShipmentsQuery q dateF page limit pl now
          = .err 400 "query parameter is required" ∨
      ∃ w ∈ ["search_text @@ websearch_to_tsquery(\'simple\', %s)",
        "search_text @@ websearch_to_tsquery(\'simple\', %s)" ++ " AND "
          ++ (dateFilterSqlText ++ " >= %s AND " ++ dateFilterSqlText ++ " <= %s")],
        outcomeDataText (searchShipmentsQuery q dateF page limit pl now)
          = "SELECT * FROM shipments " ++ ("WHERE " ++ w) ++ " ORDER BY "
            ++ dateFilterSqlText ++ " DESC LIMIT %s OFFSET %s") ∧
    (∀ (a : AdvArgs) (c : List String) (p : List SqlParam),
      advConditions a = .ok (c, p) → ∀ x ∈ c, x ∈ advWhereFragments) ∧
    (∀ (s e df : Option String) (limit : Nat) (pl : String → Option DateD) (now : DateD),
      ((topCustomersQuery s e df limit pl now).1 = topCustomersFallbackText ∨
        ∃ n ∈ [24000, 168000, 720000, 8640000],
          (topCustomersQuery s e df limit pl now).1 = topCustomersBucketText n) ∧
      ((averageWeightQuery s e df pl now).1 = averageWeightFallbackText ∨
        ∃ n ∈ [24000, 168000, 720000, 8640000],
          (averageWeightQuery s e df pl now).1 = averageWeightBucketText n) ∧
      ((topCitiesQuery s e df limit pl now).1 = topCitiesFallbackText ∨
        ∃ n ∈ [24000, 168000, 720000, 8640000],
          (topCitiesQuery s e df limit pl now).1 = topCitiesBucketText n)) := by
  refine ⟨?_, ?_, ?_, getAllShipments_text_templates, searchShipments_text_templates,
    advConditions_fragments, aggregate_text_templates⟩
  · intro c v₁ v₂ dateF page limit pl now h₁ h₂
    have t₁ : truthy (some v₁) = true := by simp [truthy, h₁]
    have t₂ : truthy (some v₂) = true := by simp [truthy, h₂]
    by_cases hc : truthy c = true
    · simp [filterShipmentsQuery, hc, t₁, t₂, outcomeDataText]
    · simp only [Bool.not_eq_true] at hc
      simp [filterShipmentsQuery, hc, t₁, t₂, outcomeDataText]
  · intro c v dateF page limit pl now hcne hvne
    have tc : truthy (some c) = true := by simp [truthy, hcne]
    have tv : truthy (some v) = true := by simp [truthy, hvne]
    by_cases hpm : (truthy dateF && dateF.getD "" ≠ "total"
        && (parse_date_filter pl now dateF).1.isSome
        && (parse_date_filter pl now dateF).2.isSome) = true
    · simp only [filterShipmentsQuery, tc, tv, hpm, Bool.not_true, Bool.or_self,
        Bool.false_eq_true, if_true, if_false, ite_false, ite_true, Option.getD_some,
        outcomeDataText]
      simp only [String.toList, String.data_append, List.append_assoc]
      exact containsL_append_left (containsL_append_left (containsL_self_append _ _) _) _
    · simp only [Bool.not_eq_true] at hpm
      simp only [filterShipmentsQuery, tc, tv, hpm, Bool.not_true, Bool.or_self,
        Bool.false_eq_true, if_true, if_false, ite_false, ite_true, Option.getD_some,
        outcomeDataText]
      simp only [String.toList, String.data_append, List.append_assoc]
      exact containsL_append_left (containsL_append_left (containsL_self_append _ _) _) _
  · intro col pl now
    have hq : build_sql_query_from_filters pl now { } [col]
        = ("SELECT " ++ col ++ " FROM shipments") ++ " ORDER BY id DESC LIMIT 1000" := rfl
    rw [hq]
    simp only [String.toList, String.data_append, List.append_assoc]
    exact containsL_append_left (containsL_self_append _ _) _

/-- Witness: the filter statement's text is the same for two different
caller values at a concrete column and clock date. -/
theorem filter_values_bound_columns_interpolated_witness :
    ("x" : String) ≠ "" ∧ ("y" : String) ≠ "" ∧
    outcomeDataText (filterShipmentsQuery (some "shipper_name") (some "x") none 1 20
        (fun _ => none) ⟨2024, 1, 1⟩)
      = outcomeDataText (filterShipmentsQuery (some "shipper_name") (some "y") none 1 20
        (fun _ => none) ⟨2024, 1, 1⟩) :=
  ⟨by decide, by decide,
    filter_values_bound_columns_interpolated.1 (some "shipper_name") "x" "y" none 1 20
      (fun _ => none) ⟨2024, 1, 1⟩ (by decide) (by decide)⟩

set_option maxRecDepth 20000 in
/-- C4 (counterexample): a listing request with a time filter
(`date_filter=today` at clock date 2024-06-01) does bind the parsed date
range (so a time constraint is present), yet its data statement still ends
in `ORDER BY id DESC`, not the legacy-date expression; conversely the
single-column filter endpoint with no time constraint at all orders by the
legacy-date expression. -/
theorem listing_order_ignores_time_filter :
    (getAllShipmentsQuery 1 10 (some "today") none none (fun _ => none)
        ⟨2024, 6, 1⟩).countParams
      = [SqlParam.str "20240601", SqlParam.str "20240601"] ∧
    containsL " ORDER BY id DESC LIMIT %s OFFSET %s".toList
      ((getAllShipmentsQuery 1 10 (some "today") none none (fun _ => none)
        ⟨2024, 6, 1⟩).dataText).toList = true ∧
    containsL (" ORDER BY CASE" : String).toList
      ((getAllShipmentsQuery 1 10 (some "today") none none (fun _ => none)
        ⟨2024, 6, 1⟩).dataText).toList = false ∧
    containsL (" ORDER BY CASE WHEN shipment_creation_date LIKE \'__-___-__\'").toList
      (outcomeDataText (filterShipmentsQuery (some "shipper_name") (some "x") none 1 20
        (fun _ => none) ⟨2024, 6, 1⟩)).toList = true := by
  refine ⟨by decide, by decide, by decide, by decide⟩

/-- C4 (amended): the ordering is fixed per endpoint, not chosen by the
presence of a time constraint — the main listing endpoint always emits
`ORDER BY id DESC`, and the single-column filter endpoint always emits
`ORDER BY <legacy-date expression> DESC`, whatever the date parameters. -/
theorem listing_order_fixed_per_endpoint :
    (∀ (page limit : Nat) (dateF startP endP : Option String)
        (pl : String → Option DateD) (now : DateD),
      ∃ w, (getAllShipmentsQuery page limit dateF startP endP pl now).dataText
        = "SELECT * FROM shipments" ++ w ++ " ORDER BY id DESC LIMIT %s OFFSET %s") ∧
    (∀ (c v : String) (dateF : Option String) (page limit : Nat)
        (pl : String → Option DateD) (now : DateD), c ≠ "" → v ≠ "" →
      ∃ w, outcomeDataText (filterShipmentsQuery (some c) (some v) dateF page limit pl now)
        = "SELECT * FROM shipments" ++ w ++ " ORDER BY " ++ dateFilterSqlText
          ++ " DESC LIMIT ? OFFSET ?") := by
  constructor
  · intro page limit dateF startP endP pl now
    exact ⟨_, rfl⟩
  · intro c v dateF page limit pl now hcne hvne
    have tc : truthy (some c) = true := by simp [truthy, hcne]
    have tv : truthy (some v) = true := by simp [truthy, hvne]
    by_cases hpm : (truthy dateF && dateF.getD "" ≠ "total"
        && (parse_date_filter pl now dateF).1.isSome
        && (parse_date_filter pl now dateF).2.isSome) = true
    · refine ⟨" WHERE " ++ c ++ " LIKE ?" ++ " AND " ++ dateFilterSqlText ++ " >= ? AND "
        ++ dateFilterSqlText ++ " <= ?", ?_⟩
      simp only [filterShipmentsQuery, tc, tv, hpm, Bool.not_true, Bool.or_self,
        Bool.false_eq_true, if_true, if_false, ite_false, ite_true, Option.getD_some,
        outcomeDataText]
    · simp only [Bool.not_eq_true] at hpm
      refine ⟨" WHERE " ++ c ++ " LIKE ?", ?_⟩
      simp only [filterShipmentsQuery, tc, tv, hpm, Bool.not_true, Bool.or_self,
        Bool.false_eq_true, if_true, if_false, ite_false, ite_true, Option.getD_some,
        outcomeDataText]

/-- Witness: `listing_order_fixed_per_endpoint` at concrete arguments. -/
theorem listing_order_fixed_per_endpoint_witness :
    ("shipper_name" : String) ≠ "" ∧ ("x" : String) ≠ "" ∧
    (∃ w, (getAllShipmentsQuery 1 10 (some "today") none none (fun _ => none)
        ⟨2024, 6, 1⟩).dataText
      = "SELECT * FROM shipments" ++ w ++ " ORDER BY id DESC LIMIT %s OFFSET %s") ∧
    (∃ w, outcomeDataText (filterShipmentsQuery (some "shipper_name") (some "x") none 1 20
        (fun _ => none) ⟨2024, 6, 1⟩)
      = "SELECT * FROM shipments" ++ w ++ " ORDER BY " ++ dateFilterSqlText
        ++ " DESC LIMIT ? OFFSET ?") :=
  ⟨by decide, by decide,
    listing_order_fixed_per_endpoint.1 1 10 (some "today") none none (fun _ => none) ⟨2024, 6, 1⟩,
    listing_order_fixed_per_endpoint.2 "shipper_name" "x" none 1 20 (fun _ => none) ⟨2024, 6, 1⟩
      (by decide) (by decide)⟩

set_option maxRecDepth 40000 in
/-- C5 (counterexample): on the top-customers aggregate, a request carrying
both an explicit `start_date`/`end_date` range and the token `week`
produces exactly the statement and parameters of the request with no
explicit range at all — the only bound parameter is the result limit, so
the explicit range does not determine any applied date constraint. -/
theorem aggregate_ignores_explicit_range :
    topCustomersQuery (some "2024-01-01") (some "2024-12-31") (some "week") 10
        (fun _ => none) ⟨2024, 6, 1⟩
      = topCustomersQuery none none (some "week") 10 (fun _ => none) ⟨2024, 6, 1⟩ ∧
    (topCustomersQuery (some "2024-01-01") (some "2024-12-31") (some "week") 10
        (fun _ => none) ⟨2024, 6, 1⟩).2 = [SqlParam.int 10] ∧
    (averageWeightQuery (some "2024-01-01") (some "2024-12-31") (some "week")
        (fun _ => none) ⟨2024, 6, 1⟩).2 = [] := by
  refine ⟨by decide, by decide, by decide⟩

/-- C5 (amended): an explicit ISO range does take precedence over a named
token on the listing endpoint — it alone determines the `WHERE` clause and
bound parameters — but the aggregate endpoints discard the explicit range
entirely: their statements are identical with and without it. -/
theorem explicit_range_precedence_listing_only :
    (∀ (page limit : Nat) (dateF : Option String) (s e : String)
        (pl : String → Option DateD) (now : DateD),
      s ≠ "" → e ≠ "" →
      truthy (normalize_iso_to_yyyymmdd (some s)) = true →
      truthy (normalize_iso_to_yyyymmdd (some e)) = true →
      (getAllShipmentsQuery page limit dateF (some s) (some e) pl now).countText
        = "SELECT COUNT(*) as total FROM shipments"
          ++ " WHERE shipment_creation_date >= %s AND shipment_creation_date <= %s" ∧
      (getAllShipmentsQuery page limit dateF (some s) (some e) pl now).countParams
        = [SqlParam.str ((normalize_iso_to_yyyymmdd (some s)).getD ""),
           SqlParam.str ((normalize_iso_to_yyyymmdd (some e)).getD "")]) ∧
    (∀ (s e dateF : Option String) (limit : Nat) (pl : String → Option DateD) (now : DateD),
      topCustomersQuery s e dateF limit pl now
        = topCustomersQuery none none dateF limit pl now ∧
      averageWeightQuery s e dateF pl now
        = averageWeightQuery none none dateF pl now) := by
  constructor
  · intro page limit dateF s e pl now hs he hns hne
    have ts : truthy (some s) = true := by simp [truthy, hs]
    have te : truthy (some e) = true := by simp [truthy, he]
    constructor
    · simp only [getAllShipmentsQuery, ts, te, hns, hne, Bool.and_self, Bool.and_true,
        if_true, ite_true]
    · simp only [getAllShipmentsQuery, ts, te, hns, hne, Bool.and_self, Bool.and_true,
        if_true, ite_true]
  · intro s e dateF limit pl now
    exact ⟨rfl, rfl⟩

/-- Witness: `explicit_range_precedence_listing_only` applied at a concrete
explicit range together with the token `week`. -/
theorem explicit_range_precedence_listing_only_witness :
    ("2024-01-01" : String) ≠ "" ∧ ("2024-12-31" : String) ≠ "" ∧
    truthy (normalize_iso_to_yyyymmdd (some "2024-01-01")) = true ∧
    truthy (normalize_iso_to_yyyymmdd (some "2024-12-31")) = true ∧
    ((getAllShipmentsQuery 1 10 (some "week") (some "2024-01-01") (some "2024-12-31")
        (fun _ => none) ⟨2024, 6, 1⟩).countText
      = "SELECT COUNT(*) as total FROM shipments"
        ++ " WHERE shipment_creation_date >= %s AND shipment_creation_date <= %s" ∧
    (getAllShipmentsQuery 1 10 (some "week") (some "2024-01-01") (some "2024-12-31")
        (fun _ => none) ⟨2024, 6, 1⟩).countParams
      = [SqlParam.str ((normalize_iso_to_yyyymmdd (some "2024-01-01")).getD ""),
         SqlParam.str ((normalize_iso_to_yyyymmdd (some "2024-12-31")).getD "")]) :=
  ⟨by decide, by decide, by decide, by decide,
    explicit_range_precedence_listing_only.1 1 10 (some "week") "2024-01-01" "2024-12-31"
      (fun _ => none) ⟨2024, 6, 1⟩ (by decide) (by decide) (by decide) (by decide)⟩

set_option maxRecDepth 40000 in
/-- C6 (counterexample): a non-numeric value for an exact-match integer
field of the advanced multi-field search (`id=abc`, `number_of_boxes=x`)
is not silently dropped — `int(...)` raises and the request fails through
the generic handler with an HTTP 500 error response. -/
theorem advanced_search_int_error :
    advancedSearchQuery { id := some "abc" } 1 20
      = .err 500 ("invalid literal for int with base 10: " ++ "abc") ∧
    advancedSearchQuery { number_of_boxes := some "x" } 1 20
      = .err 500 ("invalid literal for int with base 10: " ++ "x") := by
  refine ⟨by decide, by decide⟩

/-- C6 (amended): the error policy is asymmetric but not uniform across
field classes — a missing structurally required parameter (empty free-text
query; filter without column or value) yields HTTP 400 with a descriptive
message, and an unparseable optional weight bound in the advanced search is
silently dropped (the request behaves exactly as if the bound were absent),
but a non-numeric value for an exact-match integer field (record id, box
count) aborts the advanced search with an HTTP 500 error response instead
of being dropped. -/
theorem error_policy_asymmetry :
    (∀ (q dateF : Option String) (page limit : Nat)
        (pl : String → Option DateD) (now : DateD),
      (⟨trimChars Char.isWhitespace (q.getD "").toList⟩ : String) = "" →
      searchShipmentsQuery q dateF page limit pl now
        = .err 400 "query parameter is required") ∧
    (∀ (c v dateF : Option String) (page limit : Nat)
        (pl : String → Option DateD) (now : DateD),
      truthy c = false ∨ truthy v = false →
      filterShipmentsQuery c v dateF page limit pl now
        = .err 400 "column and value parameters are required") ∧
    (∀ (a : AdvArgs) (v : String) (page limit : Nat),
      a.min_weight = some v → v ≠ "" → pythonFloat v = none →
      advancedSearchQuery a page limit
        = advancedSearchQuery { a with min_weight := none } page limit) ∧
    (∀ (a : AdvArgs) (v : String) (page limit : Nat),
      a.max_weight = some v → v ≠ "" → pythonFloat v = none →
      advancedSearchQuery a page limit
        = advancedSearchQuery { a with max_weight := none } page limit) ∧
    (∀ (a : AdvArgs) (v : String) (page limit : Nat),
      a.id = some v → v ≠ "" → pythonInt v = none →
      advancedSearchQuery a page limit
        = .err 500 ("invalid literal for int with base 10: " ++ v)) := by
  refine ⟨?_, ?_, ?_, ?_, ?_⟩
  · intro q dateF page limit pl now h
    simp only [searchShipmentsQuery, h, decide_True, Bool.and_self, if_true, ite_true]
  · intro c v dateF page limit pl now h
    rcases h with h | h <;>
      simp only [filterShipmentsQuery, h, Bool.not_false, Bool.true_or, Bool.or_true,
        if_true, ite_true]
  · intro a v page limit ha hv hpf
    have hfc : advFloatCond a.min_weight ">=" = ([], []) := by
      rw [ha]
      simp only [advFloatCond, if_pos hv, hpf]
    have hfc2 : advFloatCond (AdvArgs.min_weight { a with min_weight := none }) ">=" = ([], []) :=
      rfl
    simp only [advancedSearchQuery, advConditions, hfc, hfc2]
  · intro a v page limit ha hv hpf
    have hfc : advFloatCond a.max_weight "<=" = ([], []) := by
      rw [ha]
      simp only [advFloatCond, if_pos hv, hpf]
    have hfc2 : advFloatCond (AdvArgs.max_weight { a with max_weight := none }) "<=" = ([], []) :=
      rfl
    simp only [advancedSearchQuery, advConditions, hfc, hfc2]
  · intro a v page limit ha hv hpi
    have hic : advIntCond a.id "id"
        = .error ("invalid literal for int with base 10: " ++ v) := by
      rw [ha]
      simp only [advIntCond, if_pos hv, hpi]
    simp only [advancedSearchQuery, advConditions, hic]
    rfl

/-- Witness: `error_policy_asymmetry` at concrete requests — a blank
free-text query (400) and an advanced search whose `min_weight=abc` is
dropped. -/
theorem error_policy_asymmetry_witness :
    (⟨trimChars Char.isWhitespace ((some "   " : Option String).getD "").toList⟩ : String) = "" ∧
    (AdvArgs.min_weight { min_weight := some "abc" } = some "abc") ∧
    ("abc" : String) ≠ "" ∧ pythonFloat "abc" = none ∧
    searchShipmentsQuery (some "   ") none 1 20 (fun _ => none) ⟨2024, 6, 1⟩
      = .err 400 "query parameter is required" ∧
    advancedSearchQuery { min_weight := some "abc" } 1 20
      = advancedSearchQuery { ({ min_weight := some "abc" } : AdvArgs) with
          min_weight := none } 1 20 :=
  ⟨by decide, by decide, by decide, by decide,
    error_policy_asymmetry.1 (some "   ") none 1 20 (fun _ => none) ⟨2024, 6, 1⟩ (by decide),
    error_policy_asymmetry.2.2.1 { min_weight := some "abc" } "abc" 1 20 (by decide)
      (by decide) (by decide)⟩

theorem le_maxId : ∀ (t : List Shipment), ∀ r ∈ t, r.id ≤ maxId t := by
  intro t
  induction t with
  | nil => intro r hr; cases hr
  | cons x xs ih =>
    intro r hr
    rcases List.mem_cons.mp hr with h | h
    · subst h
      exact le_max_left _ _
    · exact le_trans (ih r h) (le_max_right _ _)

theorem sampleWindow_length_le (t : List Shipment) (n : Nat) (pr : Shipment → Bool)
    (hnd : (t.map (fun r => r.id)).Nodup) :
    (sampleWindow t n pr).length ≤ n := by
  classical
  have hsub : (sampleWindow t n pr).Sublist t := List.filter_sublist _
  have hmap : ((sampleWindow t n pr).map (fun r => r.id)).Sublist
      (t.map (fun r => r.id)) := hsub.map _
  have hnd2 : ((sampleWindow t n pr).map (fun r => r.id)).Nodup := hnd.sublist hmap
  have hmem : ∀ x ∈ (sampleWindow t n pr).map (fun r => r.id),
      x ∈ Finset.Ioc (maxId t - n) (maxId t) := by
    intro x hx
    obtain ⟨r, hrl, hrx⟩ := List.mem_map.mp hx
    obtain ⟨hrt, hcond⟩ := List.mem_filter.mp hrl
    have hid : maxId t - n < r.id := by
      have := (Bool.and_eq_true _ _).mp hcond
      exact of_decide_eq_true this.1
    have hle : r.id ≤ maxId t := le_maxId t r hrt
    rw [← hrx]
    exact Finset.mem_Ioc.mpr ⟨hid, hle⟩
  calc (sampleWindow t n pr).length
      = ((sampleWindow t n pr).map (fun r => r.id)).length := (List.length_map _ _).symm
    _ = ((sampleWindow t n pr).map (fun r => r.id)).toFinset.card :=
        (List.toFinset_card_of_nodup hnd2).symm
    _ ≤ (Finset.Ioc (maxId t - n) (maxId t)).card :=
        Finset.card_le_card (fun x hx => hmem x (List.mem_toFinset.mp hx))
    _ = maxId t - (maxId t - n) := Nat.card_Ioc _ _
    _ ≤ n := by omega

theorem fallbackWindow_length_le (t : List Shipment) (pr : Shipment → Bool) :
    (fallbackWindow t pr).length ≤ 100000 := by
  rw [fallbackWindow]
  exact List.length_take_le _ _

set_option maxRecDepth 40000 in
/-- C2 (counterexample): with `date_filter=today` at clock date 2024-06-01,
the requested range is `20240601..20240601`, yet a lone row whose creation
date normalizes to `20200105` — far outside that range — is in the sampled
working set of the top-customers aggregate and is counted by its grouping:
the requested date-range predicates are not applied within the working
set. -/
theorem sampled_aggregate_ignores_date_range :
    parse_date_filter (fun _ => none) ⟨2024, 6, 1⟩ (some "today")
      = (some "20240601", some "20240601") ∧
    dateFilterExpr "05-Jan-20" = some "20200105" ∧
    List.Lex (fun c₁ c₂ : Char => c₁ < c₂) "20200105".toList "20240601".toList ∧
    topCustomersWorkingSet
        [{ id := 1, shipment_creation_date := some "05-Jan-20",
           shipment_weight := some "1 Kg", shipper_name := some "ACME",
           shipper_phone := some "123", consignee_name := some "Bob",
           consignee_city := some "X" }] (some "today")
      = [{ id := 1, shipment_creation_date := some "05-Jan-20",
           shipment_weight := some "1 Kg", shipper_name := some "ACME",
           shipper_phone := some "123", consignee_name := some "Bob",
           consignee_city := some "X" }] ∧
    topCustomersAgg (topCustomersWorkingSet
        [{ id := 1, shipment_creation_date := some "05-Jan-20",
           shipment_weight := some "1 Kg", shipper_name := some "ACME",
           shipper_phone := some "123", consignee_name := some "Bob",
           consignee_city := some "X" }] (some "today"))
      = [("ACME", 1)] := by
  refine ⟨by decide, by decide, by decide, by decide, by decide⟩

/-- C2 (amended): the bucket caps are 24000/168000/720000/8640000 for
`today`/`week`/`month`/`year`, and over tables with distinct surrogate ids
no more rows than the cap are ever in the aggregated working set; top
customers and average weight fall back to the most recent 100000 rows when
no bucket or `total` is requested, while top cities defaults a missing
`date_filter` to `month` — its no-bucket working set is the 720000-row
month window, with the 100000-row fallback only for an explicit `total`
(or empty) token.  Only the field-presence predicates are applied inside
the working set: the requested date-range predicates are built and then
discarded, the sampled statements binding no date parameter at all. -/
theorem sampled_aggregate_caps_and_range_discarded :
    (sampleSizeFor "today" = 24000 ∧ sampleSizeFor "week" = 168000 ∧
      sampleSizeFor "month" = 720000 ∧ sampleSizeFor "year" = 8640000) ∧
    (∀ (t : List Shipment) (df : String), df ≠ "" → df ≠ "total" →
      (t.map (fun r => r.id)).Nodup →
      (topCustomersWorkingSet t (some df)).length ≤ sampleSizeFor df ∧
      (averageWeightWorkingSet t (some df)).length ≤ sampleSizeFor df ∧
      (topCitiesWorkingSet t (some df)).length ≤ sampleSizeFor df) ∧
    (∀ t : List Shipment,
      (topCustomersWorkingSet t (some "total")).length ≤ 100000 ∧
      (topCustomersWorkingSet t none).length ≤ 100000 ∧
      (averageWeightWorkingSet t (some "total")).length ≤ 100000 ∧
      (averageWeightWorkingSet t none).length ≤ 100000 ∧
      (topCitiesWorkingSet t (some "total")).length ≤ 100000 ∧
      (topCitiesWorkingSet t (some "")).length ≤ 100000) ∧
    (∀ t : List Shipment,
      topCitiesWorkingSet t none = sampleWindow t (sampleSizeFor "month") cityPresent ∧
      sampleSizeFor "month" = 720000 ∧
      ((t.map (fun r => r.id)).Nodup → (topCitiesWorkingSet t none).length ≤ 720000)) ∧
    (∀ (s e dateF : Option String) (limit : Nat)
        (pl : String → Option DateD) (now : DateD),
      (topCustomersQuery s e dateF limit pl now).2 = [SqlParam.int (limit : Int)] ∧
      (averageWeightQuery s e dateF pl now).2 = [] ∧
      (topCitiesQuery s e dateF limit pl now).2 = [SqlParam.int (limit : Int)]) := by
  refine ⟨⟨rfl, rfl, rfl, rfl⟩, ?_, ?_, ?_, ?_⟩
  · intro t df hne htot hnd
    have h1 : truthy (some df) = true := by simp [truthy, hne]
    have h2 : decide (df ≠ "total") = true := by simp [htot]
    have h3 : decide (df ≠ "") = true := by simp [hne]
    refine ⟨?_, ?_, ?_⟩
    · simp only [topCustomersWorkingSet, h1, h2, Option.getD_some, decide_True,
        Bool.and_self, Bool.true_and, Bool.and_true, if_true, ite_true]
      exact sampleWindow_length_le t _ _ hnd
    · simp only [averageWeightWorkingSet, h1, h2, Option.getD_some, decide_True,
        Bool.and_self, Bool.true_and, Bool.and_true, if_true, ite_true]
      exact sampleWindow_length_le t _ _ hnd
    · simp only [topCitiesWorkingSet, h2, h3, Option.getD_some, decide_True,
        Bool.and_self, Bool.true_and, Bool.and_true, if_true, ite_true]
      exact sampleWindow_length_le t _ _ hnd
  · intro t
    refine ⟨?_, ?_, ?_, ?_, ?_, ?_⟩ <;>
      simp only [topCustomersWorkingSet, averageWeightWorkingSet, topCitiesWorkingSet,
        truthy, Option.getD_some, Option.getD_none, ne_eq, not_true_eq_false,
        decide_False, Bool.and_false, Bool.false_and, Bool.and_self, if_false,
        ite_false] <;>
      exact fallbackWindow_length_le t _
  · intro t
    refine ⟨rfl, rfl, ?_⟩
    intro hnd
    exact le_trans (sampleWindow_length_le t _ _ hnd) (Nat.le_of_eq rfl)
  · intro s e dateF limit pl now
    refine ⟨?_, ?_, ?_⟩
    · rw [topCustomersQuery]
      split <;> rfl
    · rw [averageWeightQuery]
      split <;> rfl
    · rw [topCitiesQuery]
      split <;> rfl

/-- Witness: `sampled_aggregate_caps_and_range_discarded` at a concrete
two-row table with distinct ids and the `today` bucket. -/
theorem sampled_aggregate_caps_witness :
    ("today" : String) ≠ "" ∧ ("today" : String) ≠ "total" ∧
    (([{ id := 1, shipper_name := some "A" },
       { id := 2, shipper_name := some "B" }] : List Shipment).map
        (fun r => r.id)).Nodup ∧
    ((topCustomersWorkingSet
        [{ id := 1, shipper_name := some "A" },
         { id := 2, shipper_name := some "B" }] (some "today")).length
        ≤ sampleSizeFor "today" ∧
      (averageWeightWorkingSet
        [{ id := 1, shipper_name := some "A" },
         { id := 2, shipper_name := some "B" }] (some "today")).length
        ≤ sampleSizeFor "today" ∧
      (topCitiesWorkingSet
        [{ id := 1, shipper_name := some "A" },
         { id := 2, shipper_name := some "B" }] (some "today")).length
        ≤ sampleSizeFor "today") :=
  ⟨by decide, by decide, by decide,
    (sampled_aggregate_caps_and_range_discarded.2.1
      [{ id := 1, shipper_name := some "A" },
       { id := 2, shipper_name := some "B" }] "today"
      (by decide) (by decide) (by decide))⟩

end ShippingApi
